import Mathlib

/-!
Verification development for the azure alert analysis repository.

The embedding follows the two analytically relevant source files:
  * azure_alerts_analysis_20250822_171957/subscription_2_.../analyze_alerts.py
    (function analyze_alerts, function generate_report)
  * azure_alerts_analysis_20250822_171957/create_consolidated_dashboard.py
    (function aggregate_subscription_data)

Python dictionaries with integer values (collections.Counter and
defaultdict(int)) are embedded as insertion ordered association lists
`List (K × Nat)`; `counter[k] += n` is `incC`, lookup with default 0 is
`getC`.  Python record fields whose runtime shape is not guaranteed are
embedded as `Option FieldVal`, where `none` is a missing key and
`FieldVal` covers the shapes the source branches on (plain string,
dict with value / localizedValue entries, anything else).  Timestamp
parsing (datetime.fromisoformat wrapped in try/except) is embedded as an
arbitrary partial parse function `String → Option Timestamp` quantified
in the theorems.  Presentation only fields of the analysis dictionary
(maintenance_windows, resource_health_alerts, subscription_summary) are
not claim relevant and are omitted from the embedded state.
-/

/-- Runtime shape of one raw record field, as the source distinguishes
them: a plain string, a dict (the source reads its value and
localizedValue entries and falls back to str(d), written here as the
`render` component), or any other value carrying only its Python
truthiness and its str() rendering.  An empty dict is modelled as
`vOther false r` since it is falsy and has neither entry. -/
inductive FieldVal where
  | vStr (s : String)
  | vDict (value localizedValue : Option String) (render : String)
  | vOther (truthy : Bool) (render : String)
deriving DecidableEq

/-- Python truthiness of a field value: a string is truthy iff nonempty,
a (nonempty) dict is truthy, other values carry their flag. -/
def FieldVal.truthy : FieldVal → Bool
  | .vStr s => !(s == "")
  | .vDict _ _ _ => true
  | .vOther t _ => t

/-- Python `x or dflt` on an optional string, where both a missing key
(none) and an empty string are falsy. -/
def orElseStr : Option String → String → String
  | some s, dflt => if s = "" then dflt else s
  | none, dflt => dflt

/-- Python `d.get(\x27value\x27) or d.get(\x27localizedValue\x27) or str(d)`
from the resourceType handling of analyze_alerts. -/
def dictStr (value localizedValue : Option String) (render : String) : String :=
  orElseStr value (orElseStr localizedValue render)

/-- String extracted from a truthy resourceType style field: a dict is
resolved through `dictStr`, anything else goes through str(). -/
def resourceTypeStr : FieldVal → String
  | .vStr s => s
  | .vDict v l r => dictStr v l r
  | .vOther _ r => r

/-- Guard `x and isinstance(x, str)` used throughout analyze_alerts:
the field must be present, a string, and truthy (nonempty). -/
def strOk : Option FieldVal → Option String
  | some (.vStr v) => if v = "" then none else some v
  | _ => none

/-- Broken out components of a parsed datetime value: everything the
source reads from a datetime (hour, strftime day, the 5 minute window
via replace on minute/second/microsecond). -/
structure Timestamp where
  year : Nat
  month : Nat
  day : Nat
  hour : Nat
  minute : Nat
  second : Nat
  microsecond : Nat
deriving DecidableEq

/-- One raw input record with every field either loop of analyze_alerts
reads.  `none` is a missing key; a key present with JSON null is
`some (.vOther false r)`. -/
structure RawRecord where
  level : Option FieldVal := none
  resourceType : Option FieldVal := none
  resourceGroup : Option FieldVal := none
  resourceId : Option FieldVal := none
  timestamp : Option FieldVal := none
  severity : Option FieldVal := none
  name : Option FieldVal := none
  alertState : Option FieldVal := none
  targetResourceType : Option FieldVal := none
  targetResourceGroup : Option FieldVal := none
  targetResource : Option FieldVal := none
  startDateTime : Option FieldVal := none
  correlationId : Option FieldVal := none
deriving DecidableEq

/-- Counter lookup with default 0 (first matching key). -/
def getC {K : Type} [DecidableEq K] : List (K × Nat) → K → Nat
  | [], _ => 0
  | (k, c) :: rest, k0 => if k = k0 then c else getC rest k0

/-- Python `counter[k] += n`: add to the existing entry, else append a
new entry at the end (dict insertion order). -/
def incC {K : Type} [DecidableEq K] : List (K × Nat) → K → Nat → List (K × Nat)
  | [], k0, n => [(k0, n)]
  | (k, c) :: rest, k0, n =>
      if k = k0 then (k, c + n) :: rest else (k, c) :: incC rest k0 n

/-- Association list lookup (first matching key). -/
def lookupA {K B : Type} [DecidableEq K] : List (K × B) → K → Option B
  | [], _ => none
  | (k, b) :: rest, k0 => if k = k0 then some b else lookupA rest k0

/-- Python `k in d` key membership. -/
def hasKey {K B : Type} [DecidableEq K] (m : List (K × B)) (k : K) : Bool :=
  (lookupA m k).isSome

/-- Nested counter lookup with default 0. -/
def getC2 {K K2 : Type} [DecidableEq K] [DecidableEq K2]
    (m : List (K × List (K2 × Nat))) (k1 : K) (k2 : K2) : Nat :=
  match lookupA m k1 with
  | some inner => getC inner k2
  | none => 0

/-- Python `nested[k1][k2] += n` on a defaultdict of defaultdict(int):
update the inner counter of the first entry for `k1`, else append a new
entry at the end. -/
def incC2 {K K2 : Type} [DecidableEq K] [DecidableEq K2] :
    List (K × List (K2 × Nat)) → K → K2 → Nat → List (K × List (K2 × Nat))
  | [], k1, k2, n => [(k1, [(k2, n)])]
  | (k, inner) :: rest, k1, k2, n =>
      if k = k1 then (k, incC inner k2 n) :: rest
      else (k, inner) :: incC2 rest k1 k2 n

/-- Dict of lists keyed grouping, Python `groups[key].append(a)` on a
defaultdict(list): append to the existing group, else append a new
group at the end (insertion order of first occurrence). -/
def addToGroup {K A : Type} [DecidableEq K] :
    List (K × List A) → K → A → List (K × List A)
  | [], k0, a => [(k0, [a])]
  | (k, l) :: rest, k0, a =>
      if k = k0 then (k, l ++ [a]) :: rest
      else (k, l) :: addToGroup rest k0 a

/-- Group contents for a key, empty when the key is absent. -/
def grpGet {K A : Type} [DecidableEq K] (gs : List (K × List A)) (k : K) : List A :=
  match lookupA gs k with
  | some l => l
  | none => []

/-- Keys of an association list in order. -/
def keysOf {K B : Type} (m : List (K × B)) : List K := m.map Prod.fst

/-- First occurrence deduplication standing in for Python
`list(set(xs))`, whose element order the source does not rely on. -/
def dedupF {A : Type} [DecidableEq A] : List A → List A
  | [] => []
  | a :: rest => if a ∈ rest then dedupF rest else a :: dedupF rest

/-- The five recognized severity levels, the literal key set of the
top_alerts_by_severity dict in analyze_alerts and in the dashboard. -/
def sevLevels : List String := ["Sev0", "Sev1", "Sev2", "Sev3", "Sev4"]

/-- One detected alert storm (analyze_alerts storm loop). -/
structure Storm where
  time : Timestamp
  count : Nat
  resources : List String
deriving DecidableEq

/-- One detected correlation pattern (analyze_alerts correlation loop). -/
structure CorrPattern where
  correlation_id : String
  alert_count : Nat
  resources : List String
  time_span : String
deriving DecidableEq

/-- One tuning recommendation (analyze_alerts tuning loop). -/
structure TuningRec where
  resource : String
  alert_count : Nat
  recommendation : String
deriving DecidableEq

/-- The claim relevant fields of the analysis dictionary built by
analyze_alerts (20250822_171957 variant).  The three lifecycle scalars
are the entries of alert_lifecycle_metrics. -/
structure Analysis where
  total_alerts : Nat
  severity_breakdown : List (String × Nat)
  alert_state_breakdown : List (String × Nat)
  alert_state_by_severity : List (String × List (String × Nat))
  resource_type_breakdown : List (String × Nat)
  resource_group_breakdown : List (String × Nat)
  hourly_distribution : List (Nat × Nat)
  daily_distribution : List ((Nat × Nat × Nat) × Nat)
  top_alerting_resources : List (String × Nat)
  top_alerts_by_severity : List (String × List (String × Nat))
  new_alerts : Nat
  acknowledged_alerts : Nat
  closed_alerts : Nat
  correlation_patterns : List CorrPattern
  tuning_recommendations : List TuningRec
  alert_storms : List Storm
deriving DecidableEq

/-- Initial analysis containers of analyze_alerts; total_alerts is
len(activity_alerts) + len(alert_history), every counter empty and
top_alerts_by_severity holding the five fixed severity keys. -/
def initAnalysis (n : Nat) : Analysis :=
  { total_alerts := n
    severity_breakdown := []
    alert_state_breakdown := []
    alert_state_by_severity := []
    resource_type_breakdown := []
    resource_group_breakdown := []
    hourly_distribution := []
    daily_distribution := []
    top_alerting_resources := []
    top_alerts_by_severity :=
      [("Sev0", []), ("Sev1", []), ("Sev2", []), ("Sev3", []), ("Sev4", [])]
    new_alerts := 0
    acknowledged_alerts := 0
    closed_alerts := 0
    correlation_patterns := []
    tuning_recommendations := []
    alert_storms := [] }

/-- Timestamp of a record field: the field must pass the
`x and isinstance(x, str)` guard, then the parse (fromisoformat inside
try/except) must succeed. -/
def tsOf (parse : String → Option Timestamp) (fv : Option FieldVal) : Option Timestamp :=
  match strOk fv with
  | some v => parse v
  | none => none

/-- Day key dt.strftime of a parsed timestamp; the format string
renders exactly the (year, month, day) triple, embedded as the triple. -/
def dayKey (dt : Timestamp) : Nat × Nat × Nat := (dt.year, dt.month, dt.day)

/-- Counter update for a field guarded by `x and isinstance(x, str)`
(severity_breakdown, resource_group_breakdown, top_alerting_resources,
alert_state_breakdown updates). -/
def truthyStrUpd (m : List (String × Nat)) (fv : Option FieldVal) : List (String × Nat) :=
  match strOk fv with
  | some v => incC m v 1
  | none => m

/-- Counter update for the resourceType style fields: any truthy value
counts, a dict through value / localizedValue / str(d), any other
truthy value through str(x). -/
def rtypeUpd (m : List (String × Nat)) (fv : Option FieldVal) : List (String × Nat) :=
  match fv with
  | some v => if v.truthy then incC m (resourceTypeStr v) 1 else m
  | none => m

/-- Hourly distribution update from a timestamp field. -/
def hourUpd (parse : String → Option Timestamp) (m : List (Nat × Nat))
    (fv : Option FieldVal) : List (Nat × Nat) :=
  match tsOf parse fv with
  | some dt => incC m dt.hour 1
  | none => m

/-- Daily distribution update from a timestamp field. -/
def dayUpd (parse : String → Option Timestamp) (m : List ((Nat × Nat × Nat) × Nat))
    (fv : Option FieldVal) : List ((Nat × Nat × Nat) × Nat) :=
  match tsOf parse fv with
  | some dt => incC m (dayKey dt) 1
  | none => m

/-- Name used by the top_alerts_by_severity update:
`alert.get(\x27name\x27, \x27Unknown Alert\x27)` followed by an
isinstance(str) check — a missing key falls back to the literal
default, a present string (even empty) is used, a present non string
contributes nothing. -/
def nameOk : Option FieldVal → Option String
  | none => some "Unknown Alert"
  | some (.vStr n) => some n
  | some _ => none

/-- The top_alerts_by_severity update of the history loop: requires a
truthy string severity, a usable name, and that the severity is a key
of the (fixed five key) top alerts dict. -/
def topAlertsUpd (t : List (String × List (String × Nat)))
    (sevFv nameFv : Option FieldVal) : List (String × List (String × Nat)) :=
  match strOk sevFv with
  | some v =>
      match nameOk nameFv with
      | some n => if hasKey t v then incC2 t v n 1 else t
      | none => t
  | none => t

/-- The alert_state_by_severity update: requires a truthy string
alertState and a truthy string severity. -/
def stateBySevUpd (m : List (String × List (String × Nat)))
    (sevFv stFv : Option FieldVal) : List (String × List (String × Nat)) :=
  match strOk stFv, strOk sevFv with
  | some st, some v => incC2 m v st 1
  | _, _ => m

/-- Lifecycle counter increment: 1 when the alertState equals the given
target state. -/
def lifecycleInc (target : String) (stFv : Option FieldVal) : Nat :=
  match strOk stFv with
  | some st => if st = target then 1 else 0
  | none => 0

/-- Body of the activity alerts loop of analyze_alerts.  The Python
statements each read one record field and update one container, so the
sequential block is rendered as one simultaneous record update. -/
def stepActivity (parse : String → Option Timestamp) (s : Analysis) (a : RawRecord) : Analysis :=
  { s with
    severity_breakdown := truthyStrUpd s.severity_breakdown a.level
    resource_type_breakdown := rtypeUpd s.resource_type_breakdown a.resourceType
    resource_group_breakdown := truthyStrUpd s.resource_group_breakdown a.resourceGroup
    top_alerting_resources := truthyStrUpd s.top_alerting_resources a.resourceId
    hourly_distribution := hourUpd parse s.hourly_distribution a.timestamp
    daily_distribution := dayUpd parse s.daily_distribution a.timestamp }

/-- Body of the alert history loop of analyze_alerts, decomposed the
same way. -/
def stepHistory (parse : String → Option Timestamp) (s : Analysis) (a : RawRecord) : Analysis :=
  { s with
    severity_breakdown := truthyStrUpd s.severity_breakdown a.severity
    top_alerts_by_severity := topAlertsUpd s.top_alerts_by_severity a.severity a.name
    alert_state_breakdown := truthyStrUpd s.alert_state_breakdown a.alertState
    alert_state_by_severity := stateBySevUpd s.alert_state_by_severity a.severity a.alertState
    new_alerts := s.new_alerts + lifecycleInc "New" a.alertState
    acknowledged_alerts := s.acknowledged_alerts + lifecycleInc "Acknowledged" a.alertState
    closed_alerts := s.closed_alerts + lifecycleInc "Closed" a.alertState
    resource_type_breakdown := rtypeUpd s.resource_type_breakdown a.targetResourceType
    resource_group_breakdown := truthyStrUpd s.resource_group_breakdown a.targetResourceGroup
    top_alerting_resources := truthyStrUpd s.top_alerting_resources a.targetResource
    hourly_distribution := hourUpd parse s.hourly_distribution a.startDateTime
    daily_distribution := dayUpd parse s.daily_distribution a.startDateTime }

/-- Five minute window of a datetime:
`dt.replace(minute=(dt.minute // 5) * 5, second=0, microsecond=0)`. -/
def window (dt : Timestamp) : Timestamp :=
  { dt with minute := dt.minute / 5 * 5, second := 0, microsecond := 0 }

/-- Window key of an activity record, when its timestamp parses. -/
def wOfA (parse : String → Option Timestamp) (a : RawRecord) : Option Timestamp :=
  (tsOf parse a.timestamp).map window

/-- Generic record grouping loop shared by the storm and correlation
detectors: records whose key function yields a value are appended to
the group of that key. -/
def groupRecords {K : Type} [DecidableEq K] (keyf : RawRecord → Option K)
    (l : List RawRecord) : List (K × List RawRecord) :=
  l.foldl
    (fun gs a =>
      match keyf a with
      | some k => addToGroup gs k a
      | none => gs)
    []

/-- The time_windows grouping of the storm detector: activity records
with a parsable timestamp grouped by their five minute window
(computing dt and then its window per record, as the source loop does). -/
def buildWindows (parse : String → Option Timestamp) (activity : List RawRecord) :
    List (Timestamp × List RawRecord) :=
  groupRecords (wOfA parse) activity

/-- Resource id sample of a storm or correlation group:
string resourceId values, deduplicated, first five. -/
def sampleResources (alerts : List RawRecord) : List String :=
  (dedupF (alerts.filterMap (fun a => strOk a.resourceId))).take 5

/-- Storm record built from one over threshold window. -/
def mkStorm (w : Timestamp) (alerts : List RawRecord) : Storm :=
  { time := w, count := alerts.length, resources := sampleResources alerts }

/-- Storm detection: every window holding strictly more than 10 alerts
becomes a storm record. -/
def detectStorms (parse : String → Option Timestamp) (activity : List RawRecord) : List Storm :=
  (buildWindows parse activity).filterMap
    (fun p => if 10 < p.2.length then some (mkStorm p.1 p.2) else none)

/-- The correlation_groups grouping: activity records with a truthy
string correlationId grouped by it. -/
def corrGroups (activity : List RawRecord) : List (String × List RawRecord) :=
  groupRecords (fun a => strOk a.correlationId) activity

/-- Correlation pattern built from one over threshold group. -/
def mkCorr (cid : String) (alerts : List RawRecord) : CorrPattern :=
  { correlation_id := cid, alert_count := alerts.length,
    resources := sampleResources alerts, time_span := "Multiple related alerts" }

/-- Correlation detection: every group of strictly more than 2 records
becomes a pattern record. -/
def corrPatterns (activity : List RawRecord) : List CorrPattern :=
  (corrGroups activity).filterMap
    (fun p => if 2 < p.2.length then some (mkCorr p.1 p.2) else none)

/-- Stable insertion into a list sorted by descending count, placing
the new element before the first entry whose count is not larger. -/
def insertDesc (p : String × Nat) : List (String × Nat) → List (String × Nat)
  | [] => [p]
  | q :: rest => if p.2 < q.2 then q :: insertDesc p rest else p :: q :: rest

/-- Stable sort by descending count. -/
def sortDesc (l : List (String × Nat)) : List (String × Nat) :=
  l.foldr insertDesc []

/-- Counter.most_common(n): the n largest entries by count, ties kept
in insertion order (heapq.nlargest is the stable reverse sort). -/
def mostCommon (m : List (String × Nat)) (n : Nat) : List (String × Nat) :=
  (sortDesc m).take n

/-- Does this activity record match the given resource with a
Warning / Informational level, the condition counted by the tuning
loop (isinstance(str) and equality, no truthiness check). -/
def isLowSevFor (resource : String) (a : RawRecord) : Bool :=
  (match a.resourceId with
   | some (.vStr r) => r == resource
   | _ => false)
  &&
  (match a.level with
   | some (.vStr l) => l == "Warning" || l == "Informational"
   | _ => false)

/-- The low severity count of a candidate resource over the activity
records. -/
def lowSevCount (activity : List RawRecord) (resource : String) : Nat :=
  (activity.filter (isLowSevFor resource)).length

/-- Number of binary digits of a natural number (0 for 0), written with
an explicit fuel argument so that it reduces structurally; the fuel n
suffices since the digit count of n never exceeds n. -/
def bitLenAux : Nat → Nat → Nat
  | 0, _ => 0
  | fuel + 1, n => if n = 0 then 0 else bitLenAux fuel (n / 2) + 1

/-- Number of binary digits of a natural number. -/
def bitLen (n : Nat) : Nat := bitLenAux n n

/-- Round a nonnegative integer to 53 significant bits, nearest value
with ties to even: the significand rounding step of IEEE double
precision arithmetic.  Rounding a dyadic rational m * 2 ^ e to double
rounds m this way and keeps the scale, so this one function gives both
the int to double conversion of a natural number and the final rounding
of a product of doubles (exponent overflow, reachable only beyond
roughly 1.8e308, is not modelled). -/
def round53 (n : Nat) : Nat :=
  if bitLen n ≤ 53 then n
  else
    let shift := bitLen n - 53
    let q := n / 2 ^ shift
    let r := n % 2 ^ shift
    let half := 2 ^ (shift - 1)
    (if half < r || (r = half && q % 2 = 1) then q + 1 else q) * 2 ^ shift

/-- Significand of the double nearest to the literal 0.7, whose value
is m07 / 2 ^ 53 (just below 7 / 10: the remainder of 7 * 2 ^ 53 by 10
is 4, less than half, so the nearest 53 bit value rounds down). -/
def m07 : Nat := 6305039478318694

/-- The Python comparison `low > count * 0.7` evaluated as CPython
does: count is converted to a double (round53), multiplied by the
double 0.7 (m07 / 2 ^ 53) with one more rounding of the exact product,
and the int low is compared with the resulting double exactly (CPython
compares int with float without rounding the int); scaling both sides
by 2 ^ 53 makes the comparison pure integer arithmetic. -/
def pyGt07 (low count : Nat) : Bool :=
  round53 (round53 count * m07) < low * 2 ^ 53

/-- Tuning flag condition `low_sev_count > count * 0.7 and count > 5`,
with the float comparison embedded exactly through pyGt07. -/
def tuningCond (activity : List RawRecord) (p : String × Nat) : Bool :=
  pyGt07 (lowSevCount activity p.1) p.2 && 5 < p.2

/-- Tuning recommendation record for a flagged resource, carrying the
fixed advisory text. -/
def mkTuning (p : String × Nat) : TuningRec :=
  { resource := p.1, alert_count := p.2,
    recommendation := "Consider adjusting thresholds or reducing alert sensitivity" }

/-- Tuning recommendations: over the top 20 alerting resources, flag a
resource when the tuning condition holds. -/
def tuningRecs (top : List (String × Nat)) (activity : List RawRecord) : List TuningRec :=
  (mostCommon top 20).filterMap
    (fun p => if tuningCond activity p then some (mkTuning p) else none)

/-- The analyze_alerts function (20250822_171957 variant): the two
counting loops, then storm detection, tuning recommendations and
correlation patterns, each over the activity records (tuning reads the
already accumulated top_alerting_resources counter). -/
def analyze_alerts (parse : String → Option Timestamp)
    (activity alert_history : List RawRecord) : Analysis :=
  let a0 := initAnalysis (activity.length + alert_history.length)
  let a1 := activity.foldl (stepActivity parse) a0
  let a2 := alert_history.foldl (stepHistory parse) a1
  { a2 with
    alert_storms := detectStorms parse activity
    tuning_recommendations := tuningRecs a2.top_alerting_resources activity
    correlation_patterns := corrPatterns activity }

/-- The per subscription analysis document as read back by the tenant
dashboard (the claim relevant entries of analysis_data.json in the
20250822_171957 variant).  The lifecycle scalars are the entries of
alert_lifecycle_metrics the merge reads with default 0. -/
structure SubData where
  total_alerts : Nat := 0
  severity_breakdown : List (String × Nat) := []
  alert_state_breakdown : List (String × Nat) := []
  alert_state_by_severity : List (String × List (String × Nat)) := []
  new_alerts : Nat := 0
  acknowledged_alerts : Nat := 0
  closed_alerts : Nat := 0
  top_alerts_by_severity : List (String × List (String × Nat)) := []
  resource_type_breakdown : List (String × Nat) := []
  resource_group_breakdown : List (String × Nat) := []
  top_alerting_resources : List (String × Nat) := []
deriving DecidableEq

/-- The consolidated tenant document built by
aggregate_subscription_data (scalar and counter fields; the
subscription_summary display list is not claim relevant). -/
structure Consolidated where
  total_alerts : Nat
  severity_breakdown : List (String × Nat)
  alert_state_breakdown : List (String × Nat)
  alert_state_by_severity : List (String × List (String × Nat))
  new_alerts : Nat
  acknowledged_alerts : Nat
  closed_alerts : Nat
  top_alerts_by_severity : List (String × List (String × Nat))
  resource_type_breakdown : List (String × Nat)
  resource_group_breakdown : List (String × Nat)
  top_alerting_resources : List (String × Nat)
deriving DecidableEq

/-- Initial consolidated containers of aggregate_subscription_data. -/
def initConsolidated : Consolidated :=
  { total_alerts := 0
    severity_breakdown := []
    alert_state_breakdown := []
    alert_state_by_severity := []
    new_alerts := 0
    acknowledged_alerts := 0
    closed_alerts := 0
    top_alerts_by_severity :=
      [("Sev0", []), ("Sev1", []), ("Sev2", []), ("Sev3", []), ("Sev4", [])]
    resource_type_breakdown := []
    resource_group_breakdown := []
    top_alerting_resources := [] }

/-- Python `for k, v in items: counter[k] += v`, the per map merge loop
of the dashboard. -/
def mergeCounter {K : Type} [DecidableEq K]
    (m : List (K × Nat)) (items : List (K × Nat)) : List (K × Nat) :=
  items.foldl (fun m p => incC m p.1 p.2) m

/-- The nested alert_state_by_severity merge loop:
`for severity, states in items: for state, count in states:
 nested[severity][state] += count`. -/
def mergeNested (m : List (String × List (String × Nat)))
    (items : List (String × List (String × Nat))) :
    List (String × List (String × Nat)) :=
  items.foldl (fun m q => q.2.foldl (fun m r => incC2 m q.1 r.1 r.2) m) m

/-- The top_alerts_by_severity merge loop: for each of the five fixed
severities, when the subscription document has that key, add its inner
counter entries into the consolidated per severity counter. -/
def mergeTopAlerts (m : List (String × List (String × Nat)))
    (d : List (String × List (String × Nat))) :
    List (String × List (String × Nat)) :=
  sevLevels.foldl
    (fun m sev =>
      match lookupA d sev with
      | some inner => inner.foldl (fun m p => incC2 m sev p.1 p.2) m
      | none => m)
    m

/-- Merging one subscription document into the consolidated state: the
body of the subscription loop of aggregate_subscription_data.  Each
Python statement adds one document field into one consolidated field,
rendered as a simultaneous record update. -/
def mergeSub (c : Consolidated) (d : SubData) : Consolidated :=
  { total_alerts := c.total_alerts + d.total_alerts
    severity_breakdown := mergeCounter c.severity_breakdown d.severity_breakdown
    alert_state_breakdown := mergeCounter c.alert_state_breakdown d.alert_state_breakdown
    alert_state_by_severity := mergeNested c.alert_state_by_severity d.alert_state_by_severity
    new_alerts := c.new_alerts + d.new_alerts
    acknowledged_alerts := c.acknowledged_alerts + d.acknowledged_alerts
    closed_alerts := c.closed_alerts + d.closed_alerts
    top_alerts_by_severity := mergeTopAlerts c.top_alerts_by_severity d.top_alerts_by_severity
    resource_type_breakdown := mergeCounter c.resource_type_breakdown d.resource_type_breakdown
    resource_group_breakdown := mergeCounter c.resource_group_breakdown d.resource_group_breakdown
    top_alerting_resources := mergeCounter c.top_alerting_resources d.top_alerting_resources }

/-- The tenant rollup of aggregate_subscription_data over a list of
subscription documents. -/
def aggregate_subscription_data (ds : List SubData) : Consolidated :=
  ds.foldl mergeSub initConsolidated

/-- Guarded percentage used by generate_report and by the dashboard:
`(count / total * 100) if total > 0 else 0`. -/
def pct (count total : Nat) : Rat :=
  if 0 < total then (count : Rat) / (total : Rat) * 100 else 0

/-- The low severity percentage of generate_report:
`(warning + informational) / max(total_alerts, 1) * 100`. -/
def lowSevPct (a : Analysis) : Rat :=
  ((getC a.severity_breakdown "Warning" : Rat)
    + (getC a.severity_breakdown "Informational" : Rat))
    / (max a.total_alerts 1 : Nat) * 100

/-- Per key contribution of one counter snapshot: the sum of the counts
its entries carry for the key (key wise integer addition, a missing key
contributing 0). -/
def sumA {K : Type} [DecidableEq K] (l : List (K × Nat)) (k : K) : Nat :=
  (l.map (fun p => if p.1 = k then p.2 else 0)).sum

/-- Per key pair contribution of one nested counter snapshot. -/
def sumA2 (l : List (String × List (String × Nat))) (k1 k2 : String) : Nat :=
  (l.map (fun q => if q.1 = k1 then sumA q.2 k2 else 0)).sum

/-- Per key pair contribution of a subscription top_alerts_by_severity
snapshot to the tenant merge: only the five recognized severities are
copied. -/
def topContrib (d : List (String × List (String × Nat))) (sev nm : String) : Nat :=
  if sev ∈ sevLevels then sumA ((lookupA d sev).getD []) nm else 0

/-- Hour extracted from a timestamp field when it parses. -/
def hourF (parse : String → Option Timestamp) (fv : Option FieldVal) : Option Nat :=
  (tsOf parse fv).map Timestamp.hour

/-- Day key extracted from a timestamp field when it parses. -/
def dayF (parse : String → Option Timestamp) (fv : Option FieldVal) :
    Option (Nat × Nat × Nat) :=
  (tsOf parse fv).map dayKey

/-- Counted string of a resourceType style field, when it counts. -/
def rtypeKey : Option FieldVal → Option String
  | some v => if v.truthy then some (resourceTypeStr v) else none
  | none => none

/-- Number of activity records falling into the given five minute
window (timestamp parses and truncates to the window). -/
def windowRecordCount (parse : String → Option Timestamp)
    (activity : List RawRecord) (w : Timestamp) : Nat :=
  (activity.filter (fun a => decide (wOfA parse a = some w))).length

/-- Number of activity records carrying the given correlation id. -/
def corrRecordCount (activity : List RawRecord) (cid : String) : Nat :=
  (activity.filter (fun a => decide (strOk a.correlationId = some cid))).length

/-- Parse function that accepts nothing, for inputs whose timestamps do
not matter. -/
def parseNone : String → Option Timestamp := fun _ => none
/-- Three alert history records sharing correlation id corr-1, used to
test the end to end correlation claim. -/
def histCorrA : RawRecord :=
  { correlationId := some (.vStr "corr-1"), severity := some (.vStr "Sev3"),
    targetResource := some (.vStr "resA") }
/-- Second history record sharing correlation id corr-1. -/
def histCorrB : RawRecord :=
  { correlationId := some (.vStr "corr-1"), severity := some (.vStr "Sev3"),
    targetResource := some (.vStr "resB") }
/-- Third history record sharing correlation id corr-1. -/
def histCorrC : RawRecord :=
  { correlationId := some (.vStr "corr-1"), severity := some (.vStr "Sev3"),
    targetResource := some (.vStr "resC") }
/-- Activity record carrying correlation id corr-1. -/
def actCorr (res : String) : RawRecord :=
  { correlationId := some (.vStr "corr-1"), resourceId := some (.vStr res),
    level := some (.vStr "Warning") }
/-- Concrete parsed timestamp used by the concrete test inputs. -/
def ts1 : Timestamp :=
  { year := 2025, month := 8, day := 22, hour := 10, minute := 2, second := 30,
    microsecond := 0 }

/-- Parse function recognizing exactly the one timestamp string of the
concrete test inputs. -/
def parseOne : String → Option Timestamp :=
  fun s => if s = "2025-08-22T10:02:30Z" then some ts1 else none

/-- History record with a parsable startDateTime, used to test the time
distribution claims. -/
def histTimed : RawRecord :=
  { severity := some (.vStr "Sev3"), alertState := some (.vStr "New"),
    startDateTime := some (.vStr "2025-08-22T10:02:30Z") }

/-- History record with a recognized severity and NO name field, used
to test the top alerts default name behavior. -/
def histNoName : RawRecord :=
  { severity := some (.vStr "Sev1"), alertState := some (.vStr "New") }

/-- Activity record for resource r1 with Warning level, the low
severity tuning test input. -/
def recW : RawRecord :=
  { resourceId := some (.vStr "r1"), level := some (.vStr "Warning") }

/-- Activity record for resource r1 with Error level. -/
def recE : RawRecord :=
  { resourceId := some (.vStr "r1"), level := some (.vStr "Error") }

/-- Six activity alerts for resource r1, five of them low severity:
the boundary input of the tuning claim (5 of 6 is above the 70 percent
threshold and 6 is above the count threshold). -/
def actSix : List RawRecord := [recW, recW, recW, recW, recW, recE]

/-- History record alerting on resource r2 (no activity record ever
carries r2). -/
def histR : RawRecord :=
  { targetResource := some (.vStr "r2"), severity := some (.vStr "Sev4") }

/-- Six history records for resource r2, a resource alerting only
through ManagementHistory records. -/
def histSix : List RawRecord := [histR, histR, histR, histR, histR, histR]

/-- Activity record whose resourceType is a truthy non string non dict
value (a JSON number 7, say), exercising the str() fallback branch. -/
def actNumType : RawRecord :=
  { resourceType := some (.vOther true "7") }

/-- Activity record with a malformed (non string) level and a good
resourceId, exercising field level dropping. -/
def actBadLevel : RawRecord :=
  { level := some (.vOther true "5"), resourceId := some (.vStr "x") }

/-- Small subscription document for the rollup commutativity test. -/
def subD1 : SubData :=
  { total_alerts := 3, severity_breakdown := [("Sev1", 2), ("Sev2", 1)],
    alert_state_by_severity := [("Sev1", [("New", 2)])],
    top_alerts_by_severity := [("Sev1", [("A", 2)])],
    top_alerting_resources := [("r", 3)] }

/-- Second small subscription document for the rollup test. -/
def subD2 : SubData :=
  { total_alerts := 2, severity_breakdown := [("Sev2", 2)] }

/-- Ninety activity alerts for resource rX, 63 of them Warning: the
low severity count 63 equals 0.7 times the total exactly, the input on
which the double comparison and the exact rational comparison of the
tuning condition disagree. -/
def act90 : List RawRecord :=
  List.replicate 63
    ({ resourceId := some (.vStr "rX"), level := some (.vStr "Warning") } : RawRecord)
  ++ List.replicate 27
    ({ resourceId := some (.vStr "rX"), level := some (.vStr "Error") } : RawRecord)

theorem getC_incC {K : Type} [DecidableEq K] (m : List (K × Nat)) (k : K) (n : Nat)
    (k0 : K) : getC (incC m k n) k0 = getC m k0 + if k = k0 then n else 0 := by
  induction m with
  | nil =>
      simp only [incC, getC]
      split <;> simp_all [getC]
  | cons p rest ih =>
      obtain ⟨k1, c⟩ := p
      simp only [incC]
      by_cases h1 : k1 = k
      · subst h1
        by_cases h0 : k1 = k0
        · subst h0; simp [getC]
        · simp [getC, h0]
      · simp only [if_neg h1]
        by_cases h0 : k1 = k0
        · subst h0
          have : k ≠ k1 := fun h => h1 h.symm
          simp [getC, this]
        · simp [getC, h0, ih]

theorem lookupA_ne_of_not_mem {K B : Type} [DecidableEq K] (m : List (K × B)) (k : K)
    (h : k ∉ keysOf m) : lookupA m k = none := by
  induction m with
  | nil => rfl
  | cons p rest ih =>
      simp only [keysOf, List.map_cons, List.mem_cons] at h
      push_neg at h
      simp only [lookupA]
      rw [if_neg (fun he => h.1 he.symm), ih (by simpa [keysOf] using h.2)]

theorem hasKey_iff_mem {K B : Type} [DecidableEq K] (m : List (K × B)) (k : K) :
    hasKey m k = true ↔ k ∈ keysOf m := by
  induction m with
  | nil => simp [hasKey, lookupA, keysOf]
  | cons p rest ih =>
      simp only [hasKey, lookupA, keysOf, List.map_cons, List.mem_cons]
      by_cases h : p.1 = k
      · simp [h]
      · simp only [if_neg h]
        rw [← keysOf]
        constructor
        · intro hs
          exact Or.inr (ih.mp hs)
        · intro hor
          rcases hor with he | hm
          · exact absurd he.symm h
          · exact ih.mpr hm

theorem keysOf_incC {K : Type} [DecidableEq K] (m : List (K × Nat)) (k : K) (n : Nat) :
    keysOf (incC m k n) = if k ∈ keysOf m then keysOf m else keysOf m ++ [k] := by
  induction m with
  | nil => simp [incC, keysOf]
  | cons p rest ih =>
      obtain ⟨k1, c⟩ := p
      simp only [incC, keysOf, List.map_cons]
      by_cases h1 : k1 = k
      · subst h1
        simp [keysOf, List.mem_cons]
      · rw [if_neg h1]
        simp only [List.map_cons]
        rw [← keysOf, ← keysOf, ih]
        have hne : ¬ k = k1 := fun h => h1 h.symm
        by_cases hm : k ∈ keysOf rest
        · simp [List.mem_cons, hm, hne]
        · simp [List.mem_cons, hm, hne]

theorem nodup_keys_incC {K : Type} [DecidableEq K] (m : List (K × Nat)) (k : K) (n : Nat)
    (h : (keysOf m).Nodup) : (keysOf (incC m k n)).Nodup := by
  rw [keysOf_incC]
  by_cases hm : k ∈ keysOf m
  · simpa [hm] using h
  · simp only [if_neg hm]
    refine List.Nodup.append h (List.nodup_singleton k) ?_
    intro x hx hy
    simp only [List.mem_singleton] at hy
    exact hm (hy ▸ hx)

theorem getC2_incC2 {K K2 : Type} [DecidableEq K] [DecidableEq K2]
    (m : List (K × List (K2 × Nat))) (k1 : K) (k2 : K2) (n : Nat) (j1 : K) (j2 : K2) :
    getC2 (incC2 m k1 k2 n) j1 j2
      = getC2 m j1 j2 + if k1 = j1 ∧ k2 = j2 then n else 0 := by
  induction m with
  | nil =>
      by_cases h1 : k1 = j1
      · subst h1
        simp [incC2, getC2, lookupA, getC]
      · simp [incC2, getC2, lookupA, h1]
  | cons p rest ih =>
      obtain ⟨k, inner⟩ := p
      by_cases hk : k = k1
      · subst hk
        by_cases hj : k = j1
        · subst hj
          simp [incC2, getC2, lookupA, getC_incC]
        · simp [incC2, getC2, lookupA, hj]
      · by_cases hj : k = j1
        · subst hj
          have hne : ¬ k1 = k := fun h => hk h.symm
          simp [incC2, getC2, lookupA, hk, hne]
        · simpa [incC2, getC2, lookupA, hk, hj] using ih

theorem keysOf_incC2_of_hasKey {K K2 : Type} [DecidableEq K] [DecidableEq K2]
    (m : List (K × List (K2 × Nat))) (k1 : K) (k2 : K2) (n : Nat)
    (h : hasKey m k1 = true) : keysOf (incC2 m k1 k2 n) = keysOf m := by
  induction m with
  | nil => simp [hasKey, lookupA] at h
  | cons p rest ih =>
      obtain ⟨k, inner⟩ := p
      simp only [incC2]
      by_cases hk : k = k1
      · simp [hk, keysOf]
      · rw [if_neg hk]
        simp only [keysOf, List.map_cons]
        simp only [hasKey, lookupA, if_neg hk] at h
        rw [← keysOf, ← keysOf, ih h]

theorem foldl_measure {S A : Type} (f : S → A → S) (mu : S → Nat) (d : A → Nat)
    (h : ∀ s a, mu (f s a) = mu s + d a) :
    ∀ (l : List A) (s : S), mu (l.foldl f s) = mu s + (l.map d).sum := by
  intro l
  induction l with
  | nil => intro s; simp
  | cons a rest ih =>
      intro s
      simp only [List.foldl_cons, List.map_cons, List.sum_cons]
      rw [ih, h]
      omega

theorem foldl_pres {S A : Type} (f : S → A → S) (P : S → Prop)
    (h : ∀ s a, P s → P (f s a)) :
    ∀ (l : List A) (s : S), P s → P (l.foldl f s) := by
  intro l
  induction l with
  | nil => intro s hs; simpa using hs
  | cons a rest ih =>
      intro s hs
      simpa using ih (f s a) (h s a hs)

theorem foldl_measure_inv {S A : Type} (f : S → A → S) (P : S → Prop) (mu : S → Nat)
    (d : A → Nat) (hpres : ∀ s a, P s → P (f s a))
    (h : ∀ s a, P s → mu (f s a) = mu s + d a) :
    ∀ (l : List A) (s : S), P s → mu (l.foldl f s) = mu s + (l.map d).sum := by
  intro l
  induction l with
  | nil => intro s _; simp
  | cons a rest ih =>
      intro s hs
      simp only [List.foldl_cons, List.map_cons, List.sum_cons]
      rw [ih (f s a) (hpres s a hs), h s a hs]
      omega

theorem sum_indicator_eq_filter_length {A : Type} (q : A → Bool) (l : List A) :
    (l.map (fun a => if q a then 1 else 0)).sum = (l.filter q).length := by
  induction l with
  | nil => rfl
  | cons a rest ih =>
      by_cases h : q a <;> simp [List.filter_cons, h, ih, Nat.add_comm]

theorem sum_map_single {A : Type} [DecidableEq A] (L : List A) (j : A) (g : A → Nat)
    (hnd : L.Nodup) :
    (L.map (fun x => if x = j then g x else 0)).sum = if j ∈ L then g j else 0 := by
  induction L with
  | nil => simp
  | cons a rest ih =>
      rw [List.nodup_cons] at hnd
      by_cases h : a = j
      · subst h
        simp only [List.map_cons, List.sum_cons, if_pos rfl]
        rw [ih hnd.2, if_neg hnd.1]
        simp [List.mem_cons]
      · simp only [List.map_cons, List.sum_cons, if_neg h, List.mem_cons]
        rw [ih hnd.2]
        have hja : ¬ j = a := fun he => h he.symm
        by_cases hm : j ∈ rest
        · simp [hm, hja]
        · simp [hm, hja]

theorem getC_mergeCounter {K : Type} [DecidableEq K] (m items : List (K × Nat)) (k : K) :
    getC (mergeCounter m items) k = getC m k + sumA items k := by
  have h := foldl_measure (fun (m : List (K × Nat)) (p : K × Nat) => incC m p.1 p.2)
    (fun m => getC m k) (fun p => if p.1 = k then p.2 else 0)
    (fun m p => getC_incC m p.1 p.2 k) items m
  simpa [mergeCounter, sumA] using h

theorem getC2_innerFold {K K2 : Type} [DecidableEq K] [DecidableEq K2]
    (m : List (K × List (K2 × Nat))) (k1 : K) (inner : List (K2 × Nat)) (j1 : K) (j2 : K2) :
    getC2 (inner.foldl (fun m r => incC2 m k1 r.1 r.2) m) j1 j2
      = getC2 m j1 j2 + if k1 = j1 then sumA inner j2 else 0 := by
  have h := foldl_measure (fun m r => incC2 m k1 r.1 r.2) (fun m => getC2 m j1 j2)
    (fun r => if k1 = j1 ∧ r.1 = j2 then r.2 else 0)
    (fun m r => getC2_incC2 m k1 r.1 r.2 j1 j2) inner m
  rw [h]
  by_cases hk : k1 = j1
  · subst hk
    simp [sumA]
  · simp [hk]

theorem getC2_mergeNested (m items : List (String × List (String × Nat))) (j1 j2 : String) :
    getC2 (mergeNested m items) j1 j2 = getC2 m j1 j2 + sumA2 items j1 j2 := by
  have h := foldl_measure
    (fun (m : List (String × List (String × Nat))) (q : String × List (String × Nat)) =>
      q.2.foldl (fun m r => incC2 m q.1 r.1 r.2) m)
    (fun m => getC2 m j1 j2)
    (fun q => if q.1 = j1 then sumA q.2 j2 else 0)
    (fun m q => getC2_innerFold m q.1 q.2 j1 j2) items m
  simpa [mergeNested, sumA2] using h

theorem getC2_all_nil {K K2 : Type} [DecidableEq K] [DecidableEq K2]
    (m : List (K × List (K2 × Nat))) (j1 : K) (j2 : K2)
    (h : ∀ p ∈ m, p.2 = ([] : List (K2 × Nat))) : getC2 m j1 j2 = 0 := by
  induction m with
  | nil => rfl
  | cons p rest ih =>
      obtain ⟨k, inner⟩ := p
      have hi : inner = [] := h (k, inner) (List.mem_cons_self _ _)
      subst hi
      by_cases hk : k = j1
      · simp [getC2, lookupA, hk, getC]
      · simp only [getC2, lookupA, if_neg hk]
        exact ih (fun q hq => h q (List.mem_cons_of_mem _ hq))

theorem getC2_mergeTopAlerts (m d : List (String × List (String × Nat))) (j1 j2 : String) :
    getC2 (mergeTopAlerts m d) j1 j2 = getC2 m j1 j2 + topContrib d j1 j2 := by
  have hstep : ∀ (m : List (String × List (String × Nat))) (sev : String),
      getC2 (match lookupA d sev with
             | some inner => inner.foldl (fun m p => incC2 m sev p.1 p.2) m
             | none => m) j1 j2
        = getC2 m j1 j2 + if sev = j1 then sumA ((lookupA d sev).getD []) j2 else 0 := by
    intro m sev
    cases hl : lookupA d sev with
    | some inner => simp [getC2_innerFold, hl]
    | none => simp [hl, sumA]
  have h := foldl_measure
    (fun (m : List (String × List (String × Nat))) (sev : String) =>
      match lookupA d sev with
      | some inner => inner.foldl (fun m p => incC2 m sev p.1 p.2) m
      | none => m)
    (fun m => getC2 m j1 j2)
    (fun sev => if sev = j1 then sumA ((lookupA d sev).getD []) j2 else 0)
    hstep sevLevels m
  rw [mergeTopAlerts, h, sum_map_single _ _ _ (by decide)]
  rw [topContrib]

theorem agg_total (ds : List SubData) :
    (aggregate_subscription_data ds).total_alerts
      = (ds.map (fun d => d.total_alerts)).sum := by
  have h := foldl_measure mergeSub (fun c => c.total_alerts) (fun d => d.total_alerts)
    (fun c d => rfl) ds initConsolidated
  simpa [aggregate_subscription_data, initConsolidated] using h

theorem agg_severity (ds : List SubData) (k : String) :
    getC (aggregate_subscription_data ds).severity_breakdown k
      = (ds.map (fun d => sumA d.severity_breakdown k)).sum := by
  have h := foldl_measure mergeSub (fun c => getC c.severity_breakdown k)
    (fun d => sumA d.severity_breakdown k)
    (fun c d => getC_mergeCounter c.severity_breakdown d.severity_breakdown k)
    ds initConsolidated
  simpa [aggregate_subscription_data, initConsolidated, getC] using h

theorem agg_state (ds : List SubData) (k : String) :
    getC (aggregate_subscription_data ds).alert_state_breakdown k
      = (ds.map (fun d => sumA d.alert_state_breakdown k)).sum := by
  have h := foldl_measure mergeSub (fun c => getC c.alert_state_breakdown k)
    (fun d => sumA d.alert_state_breakdown k)
    (fun c d => getC_mergeCounter c.alert_state_breakdown d.alert_state_breakdown k)
    ds initConsolidated
  simpa [aggregate_subscription_data, initConsolidated, getC] using h

theorem agg_rtype (ds : List SubData) (k : String) :
    getC (aggregate_subscription_data ds).resource_type_breakdown k
      = (ds.map (fun d => sumA d.resource_type_breakdown k)).sum := by
  have h := foldl_measure mergeSub (fun c => getC c.resource_type_breakdown k)
    (fun d => sumA d.resource_type_breakdown k)
    (fun c d => getC_mergeCounter c.resource_type_breakdown d.resource_type_breakdown k)
    ds initConsolidated
  simpa [aggregate_subscription_data, initConsolidated, getC] using h

theorem agg_rgroup (ds : List SubData) (k : String) :
    getC (aggregate_subscription_data ds).resource_group_breakdown k
      = (ds.map (fun d => sumA d.resource_group_breakdown k)).sum := by
  have h := foldl_measure mergeSub (fun c => getC c.resource_group_breakdown k)
    (fun d => sumA d.resource_group_breakdown k)
    (fun c d => getC_mergeCounter c.resource_group_breakdown d.resource_group_breakdown k)
    ds initConsolidated
  simpa [aggregate_subscription_data, initConsolidated, getC] using h

theorem agg_topres (ds : List SubData) (k : String) :
    getC (aggregate_subscription_data ds).top_alerting_resources k
      = (ds.map (fun d => sumA d.top_alerting_resources k)).sum := by
  have h := foldl_measure mergeSub (fun c => getC c.top_alerting_resources k)
    (fun d => sumA d.top_alerting_resources k)
    (fun c d => getC_mergeCounter c.top_alerting_resources d.top_alerting_resources k)
    ds initConsolidated
  simpa [aggregate_subscription_data, initConsolidated, getC] using h

theorem agg_state_by_sev (ds : List SubData) (s st : String) :
    getC2 (aggregate_subscription_data ds).alert_state_by_severity s st
      = (ds.map (fun d => sumA2 d.alert_state_by_severity s st)).sum := by
  have h := foldl_measure mergeSub (fun c => getC2 c.alert_state_by_severity s st)
    (fun d => sumA2 d.alert_state_by_severity s st)
    (fun c d => getC2_mergeNested c.alert_state_by_severity d.alert_state_by_severity s st)
    ds initConsolidated
  simpa [aggregate_subscription_data, initConsolidated, getC2, lookupA] using h

theorem agg_topalerts (ds : List SubData) (s n : String) :
    getC2 (aggregate_subscription_data ds).top_alerts_by_severity s n
      = (ds.map (fun d => topContrib d.top_alerts_by_severity s n)).sum := by
  have h := foldl_measure mergeSub (fun c => getC2 c.top_alerts_by_severity s n)
    (fun d => topContrib d.top_alerts_by_severity s n)
    (fun c d => getC2_mergeTopAlerts c.top_alerts_by_severity d.top_alerts_by_severity s n)
    ds initConsolidated
  have h0 : getC2 initConsolidated.top_alerts_by_severity s n = 0 :=
    getC2_all_nil _ s n (by decide)
  simpa [aggregate_subscription_data, h0] using h

theorem map_sum_perm {A : Type} (f : A → Nat) {l1 l2 : List A} (h : l1.Perm l2) :
    (l1.map f).sum = (l2.map f).sum :=
  (h.map f).sum_eq

theorem map_sum_append {A : Type} (f : A → Nat) (xs ys : List A) :
    ((xs ++ ys).map f).sum = (xs.map f).sum + (ys.map f).sum := by
  simp

theorem grpGet_addToGroup {K A : Type} [DecidableEq K] (gs : List (K × List A))
    (k : K) (a : A) (j : K) :
    grpGet (addToGroup gs k a) j = if k = j then grpGet gs j ++ [a] else grpGet gs j := by
  induction gs with
  | nil =>
      by_cases h : k = j
      · simp [addToGroup, grpGet, lookupA, h]
      · simp [addToGroup, grpGet, lookupA, h]
  | cons p rest ih =>
      obtain ⟨k1, l⟩ := p
      by_cases h1 : k1 = k
      · subst h1
        by_cases hj : k1 = j
        · subst hj
          simp [addToGroup, grpGet, lookupA]
        · simp [addToGroup, grpGet, lookupA, hj]
      · by_cases hj : k1 = j
        · subst hj
          have : ¬ k = k1 := fun h => h1 h.symm
          simp [addToGroup, grpGet, lookupA, h1, this]
        · simpa [addToGroup, grpGet, lookupA, h1, hj] using ih

theorem keysOf_addToGroup {K A : Type} [DecidableEq K] (gs : List (K × List A))
    (k : K) (a : A) :
    keysOf (addToGroup gs k a)
      = if k ∈ keysOf gs then keysOf gs else keysOf gs ++ [k] := by
  induction gs with
  | nil => simp [addToGroup, keysOf]
  | cons p rest ih =>
      obtain ⟨k1, l⟩ := p
      by_cases h1 : k1 = k
      · subst h1
        simp [addToGroup, keysOf, List.mem_cons]
      · have hne : ¬ k = k1 := fun h => h1 h.symm
        simp only [addToGroup, if_neg h1, keysOf, List.map_cons]
        rw [← keysOf, ← keysOf, ih]
        by_cases hm : k ∈ keysOf rest
        · simp [List.mem_cons, hm, hne]
        · simp [List.mem_cons, hm, hne]

theorem nodup_keys_addToGroup {K A : Type} [DecidableEq K] (gs : List (K × List A))
    (k : K) (a : A) (h : (keysOf gs).Nodup) : (keysOf (addToGroup gs k a)).Nodup := by
  rw [keysOf_addToGroup]
  by_cases hm : k ∈ keysOf gs
  · simpa [hm] using h
  · simp only [if_neg hm]
    refine List.Nodup.append h (List.nodup_singleton k) ?_
    intro x hx hy
    simp only [List.mem_singleton] at hy
    exact hm (hy ▸ hx)

theorem grpGet_groupRecords_aux {K : Type} [DecidableEq K]
    (keyf : RawRecord → Option K) (w : K) :
    ∀ (l : List RawRecord) (gs : List (K × List RawRecord)),
      grpGet (l.foldl (fun gs a =>
        match keyf a with
        | some k => addToGroup gs k a
        | none => gs) gs) w
      = grpGet gs w ++ l.filter (fun a => decide (keyf a = some w)) := by
  intro l
  induction l with
  | nil => intro gs; simp
  | cons a rest ih =>
      intro gs
      simp only [List.foldl_cons, List.filter_cons]
      cases hk : keyf a with
      | none => simp [hk, ih]
      | some k =>
          by_cases hw : k = w
          · subst hw
            simp only [hk, decide_eq_true_eq, if_pos rfl]
            rw [ih, grpGet_addToGroup]
            simp
          · have : ¬ (keyf a = some w) := by simp [hk, hw]
            simp only [hk, this, decide_eq_false_iff_not.mpr this, if_neg]
            rw [ih, grpGet_addToGroup]
            simp [hw]

theorem grpGet_groupRecords {K : Type} [DecidableEq K]
    (keyf : RawRecord → Option K) (l : List RawRecord) (w : K) :
    grpGet (groupRecords keyf l) w = l.filter (fun a => decide (keyf a = some w)) := by
  have h := grpGet_groupRecords_aux keyf w l []
  simpa [groupRecords, grpGet, lookupA] using h

theorem nodup_keys_groupRecords {K : Type} [DecidableEq K]
    (keyf : RawRecord → Option K) (l : List RawRecord) :
    (keysOf (groupRecords keyf l)).Nodup := by
  rw [groupRecords]
  refine foldl_pres _ (fun gs => (keysOf gs).Nodup) ?_ l [] (by simp [keysOf])
  intro gs a hgs
  cases hk : keyf a with
  | none => simpa [hk] using hgs
  | some k => simpa [hk] using nodup_keys_addToGroup gs k a hgs

theorem key_mem_of_mem_select {K B : Type} [DecidableEq K]
    (mk : K → List RawRecord → B) (keyOf : B → K) (thr : Nat)
    (hmk : ∀ k l, keyOf (mk k l) = k) (gs : List (K × List RawRecord)) (b : B)
    (hb : b ∈ gs.filterMap
      (fun p => if thr < p.2.length then some (mk p.1 p.2) else none)) :
    keyOf b ∈ keysOf gs := by
  rw [List.mem_filterMap] at hb
  obtain ⟨p, hp, hf⟩ := hb
  by_cases hl : thr < p.2.length
  · rw [if_pos hl, Option.some_inj] at hf
    subst hf
    rw [hmk]
    exact List.mem_map.mpr ⟨p, hp, rfl⟩
  · rw [if_neg hl] at hf
    exact absurd hf (by simp)

theorem select_threshold {K B : Type} [DecidableEq K]
    (mk : K → List RawRecord → B) (keyOf : B → K) (thr : Nat)
    (hmk : ∀ k l, keyOf (mk k l) = k) :
    ∀ (gs : List (K × List RawRecord)), (keysOf gs).Nodup → ∀ w,
      ((gs.filterMap (fun p => if thr < p.2.length then some (mk p.1 p.2) else none)).filter
          (fun b => decide (keyOf b = w)))
        = if thr < (grpGet gs w).length then [mk w (grpGet gs w)] else [] := by
  intro gs
  induction gs with
  | nil => intro _ w; simp [grpGet, lookupA]
  | cons p rest ih =>
      intro hnd w
      obtain ⟨k, l⟩ := p
      simp only [keysOf, List.map_cons, List.nodup_cons] at hnd
      have hknr : k ∉ keysOf rest := by simpa [keysOf] using hnd.1
      have hndr : (keysOf rest).Nodup := by simpa [keysOf] using hnd.2
      by_cases hw : k = w
      · subst hw
        have hrest : ((rest.filterMap
            (fun p => if thr < p.2.length then some (mk p.1 p.2) else none)).filter
              (fun b => decide (keyOf b = k))) = [] := by
          rw [List.filter_eq_nil_iff]
          intro b hb
          have := key_mem_of_mem_select mk keyOf thr hmk rest b hb
          simp only [decide_eq_true_eq]
          intro hkb
          exact hknr (hkb ▸ this)
        have hget : grpGet ((k, l) :: rest) k = l := by simp [grpGet, lookupA]
        rw [hget]
        by_cases hl : thr < l.length
        · simp only [List.filterMap_cons, if_pos hl, List.filter_cons,
            hmk, decide_eq_true_eq, if_pos rfl]
          rw [hrest]
          simp [hl]
        · simp only [List.filterMap_cons, if_neg hl]
          rw [hrest]
      · have hget : grpGet ((k, l) :: rest) w = grpGet rest w := by
          simp [grpGet, lookupA, hw]
        rw [hget]
        by_cases hl : thr < l.length
        · simp only [List.filterMap_cons, if_pos hl, List.filter_cons, hmk,
            decide_eq_true_eq]
          rw [if_neg (by simpa using hw)]
          exact ih hndr w
        · simp only [List.filterMap_cons, if_neg hl]
          exact ih hndr w


/-- C2: alert storm threshold is strict at 10.  For every input and
every five minute window, the storms reported for that window are: none
when the window holds at most 10 activity records, and exactly one
carrying the record count when it holds strictly more than 10 (so a
window of exactly 10 records yields no storm and a window of 11 yields
one storm with count 11). -/
theorem claim_C2_storm_threshold (parse : String → Option Timestamp)
    (activity alert_history : List RawRecord) (w : Timestamp) :
    (((analyze_alerts parse activity alert_history).alert_storms.filter
        (fun s => decide (s.time = w))).map Storm.count)
      = if 10 < windowRecordCount parse activity w
        then [windowRecordCount parse activity w] else [] := by
  have hunf : (analyze_alerts parse activity alert_history).alert_storms
      = detectStorms parse activity := rfl
  rw [hunf, detectStorms, buildWindows]
  rw [select_threshold mkStorm Storm.time 10 (fun k l => rfl)
    (groupRecords (wOfA parse) activity) (nodup_keys_groupRecords _ _) w]
  rw [grpGet_groupRecords]
  by_cases h : 10 < (activity.filter (fun a => decide (wOfA parse a = some w))).length
  · rw [if_pos h, if_pos (by simpa [windowRecordCount] using h)]
    simp [mkStorm, windowRecordCount]
  · rw [if_neg h, if_neg (by simpa [windowRecordCount] using h)]
    simp

/-- C3: correlation threshold is strict at 2.  For every input and
every correlation id, the patterns reported for that id are: none when
at most 2 activity records carry the id (through the truthy string
guard, so records without a correlation id belong to no group), and
exactly one carrying the member count when strictly more than 2 do (so
2 sharing records yield no pattern and 3 yield one with count 3). -/
theorem claim_C3_correlation_threshold (parse : String → Option Timestamp)
    (activity alert_history : List RawRecord) (cid : String) :
    (((analyze_alerts parse activity alert_history).correlation_patterns.filter
        (fun p => decide (p.correlation_id = cid))).map CorrPattern.alert_count)
      = if 2 < corrRecordCount activity cid
        then [corrRecordCount activity cid] else [] := by
  have hunf : (analyze_alerts parse activity alert_history).correlation_patterns
      = corrPatterns activity := rfl
  rw [hunf, corrPatterns, corrGroups]
  rw [select_threshold mkCorr CorrPattern.correlation_id 2 (fun k l => rfl)
    (groupRecords (fun a => strOk a.correlationId) activity)
    (nodup_keys_groupRecords _ _) cid]
  rw [grpGet_groupRecords]
  by_cases h : 2 < (activity.filter
      (fun a => decide (strOk a.correlationId = some cid))).length
  · rw [if_pos h, if_pos (by simpa [corrRecordCount] using h)]
    simp [mkCorr, corrRecordCount]
  · rw [if_neg h, if_neg (by simpa [corrRecordCount] using h)]
    simp





/-- C4 counterexample: with exactly three ManagementHistory records
sharing correlationId corr-1 and no activity record carrying that id,
the engine emits NO correlation pattern at all — not one with count 3 —
because the correlation grouping loop iterates over activity records
only. -/
theorem claim_C4_counterexample :
    (analyze_alerts parseNone [] [histCorrA, histCorrB, histCorrC]).correlation_patterns
      = [] := rfl

/-- C4 amended: correlation patterns are computed from the activity
records alone, so history records never produce (nor influence) any
pattern; the same three records presented as activity records yield
exactly one pattern for corr-1 with count 3. -/
theorem claim_C4_amended :
    (∀ (parse : String → Option Timestamp) (act h1 h2 : List RawRecord),
      (analyze_alerts parse act h1).correlation_patterns
        = (analyze_alerts parse act h2).correlation_patterns)
    ∧ ((analyze_alerts parseNone [actCorr "r1", actCorr "r2", actCorr "r3"]
        []).correlation_patterns.map (fun p => (p.correlation_id, p.alert_count)))
      = [("corr-1", 3)] := by
  constructor
  · intro parse act h1 h2
    rfl
  · rfl

theorem sum_indicator_prop {A : Type} (p : A → Prop) [DecidablePred p] (l : List A) :
    (l.map (fun a => if p a then 1 else 0)).sum
      = (l.filter (fun a => decide (p a))).length := by
  induction l with
  | nil => rfl
  | cons a rest ih =>
      by_cases h : p a <;> simp [List.filter_cons, h, ih, Nat.add_comm]

theorem getC_truthyStrUpd (m : List (String × Nat)) (fv : Option FieldVal) (k : String) :
    getC (truthyStrUpd m fv) k = getC m k + if strOk fv = some k then 1 else 0 := by
  cases h : strOk fv with
  | some v =>
      simp only [truthyStrUpd, h, getC_incC]
      by_cases hv : v = k <;> simp [hv]
  | none => simp [truthyStrUpd, h]

theorem getC_rtypeUpd (m : List (String × Nat)) (fv : Option FieldVal) (k : String) :
    getC (rtypeUpd m fv) k = getC m k + if rtypeKey fv = some k then 1 else 0 := by
  cases fv with
  | none => simp [rtypeUpd, rtypeKey]
  | some v =>
      by_cases ht : v.truthy
      · simp only [rtypeUpd, rtypeKey, ht, if_true, getC_incC]
        by_cases hv : resourceTypeStr v = k <;> simp [hv]
      · simp [rtypeUpd, rtypeKey, ht]

theorem getC_hourUpd (parse : String → Option Timestamp) (m : List (Nat × Nat))
    (fv : Option FieldVal) (h : Nat) :
    getC (hourUpd parse m fv) h = getC m h + if hourF parse fv = some h then 1 else 0 := by
  cases ht : tsOf parse fv with
  | some dt =>
      simp only [hourUpd, ht, getC_incC, hourF, Option.map_some]
      by_cases hv : dt.hour = h <;> simp [hv]
  | none => simp [hourUpd, ht, hourF]

theorem getC_dayUpd (parse : String → Option Timestamp)
    (m : List ((Nat × Nat × Nat) × Nat)) (fv : Option FieldVal) (dk : Nat × Nat × Nat) :
    getC (dayUpd parse m fv) dk = getC m dk + if dayF parse fv = some dk then 1 else 0 := by
  cases ht : tsOf parse fv with
  | some dt =>
      simp only [dayUpd, ht, getC_incC, dayF, Option.map_some]
      by_cases hv : dayKey dt = dk <;> simp [hv]
  | none => simp [dayUpd, ht, dayF]

theorem analyze_hourly (parse : String → Option Timestamp)
    (activity alert_history : List RawRecord) (h : Nat) :
    getC (analyze_alerts parse activity alert_history).hourly_distribution h
      = (activity.filter (fun a => decide (hourF parse a.timestamp = some h))).length
        + (alert_history.filter
            (fun a => decide (hourF parse a.startDateTime = some h))).length := by
  have hproj : (analyze_alerts parse activity alert_history).hourly_distribution
      = (alert_history.foldl (stepHistory parse) (activity.foldl (stepActivity parse)
          (initAnalysis (activity.length + alert_history.length)))).hourly_distribution := rfl
  rw [hproj]
  rw [foldl_measure (stepHistory parse) (fun s => getC s.hourly_distribution h)
    (fun a => if hourF parse a.startDateTime = some h then 1 else 0)
    (fun s a => getC_hourUpd parse s.hourly_distribution a.startDateTime h)]
  rw [foldl_measure (stepActivity parse) (fun s => getC s.hourly_distribution h)
    (fun a => if hourF parse a.timestamp = some h then 1 else 0)
    (fun s a => getC_hourUpd parse s.hourly_distribution a.timestamp h)]
  rw [sum_indicator_prop, sum_indicator_prop]
  have h0 : getC (initAnalysis
      (activity.length + alert_history.length)).hourly_distribution h = 0 := rfl
  rw [h0]
  omega

theorem analyze_daily (parse : String → Option Timestamp)
    (activity alert_history : List RawRecord) (dk : Nat × Nat × Nat) :
    getC (analyze_alerts parse activity alert_history).daily_distribution dk
      = (activity.filter (fun a => decide (dayF parse a.timestamp = some dk))).length
        + (alert_history.filter
            (fun a => decide (dayF parse a.startDateTime = some dk))).length := by
  have hproj : (analyze_alerts parse activity alert_history).daily_distribution
      = (alert_history.foldl (stepHistory parse) (activity.foldl (stepActivity parse)
          (initAnalysis (activity.length + alert_history.length)))).daily_distribution := rfl
  rw [hproj]
  rw [foldl_measure (stepHistory parse) (fun s => getC s.daily_distribution dk)
    (fun a => if dayF parse a.startDateTime = some dk then 1 else 0)
    (fun s a => getC_dayUpd parse s.daily_distribution a.startDateTime dk)]
  rw [foldl_measure (stepActivity parse) (fun s => getC s.daily_distribution dk)
    (fun a => if dayF parse a.timestamp = some dk then 1 else 0)
    (fun s a => getC_dayUpd parse s.daily_distribution a.timestamp dk)]
  rw [sum_indicator_prop, sum_indicator_prop]
  have h0 : getC (initAnalysis
      (activity.length + alert_history.length)).daily_distribution dk = 0 := rfl
  rw [h0]
  omega

/-- C6 counterexample: a ManagementHistory record with a parsable
startDateTime DOES change the hourly distribution in this analyzer
(lines 137 to 147 of the 20250822_171957 analyze_alerts feed history
timestamps into the hourly and daily buckets), contradicting the claim
that history records never change it. -/
theorem claim_C6_counterexample :
    (analyze_alerts parseOne [] [histTimed]).hourly_distribution
        ≠ (analyze_alerts parseOne [] []).hourly_distribution
    ∧ (analyze_alerts parseOne [] [histTimed]).hourly_distribution = [(10, 1)]
    ∧ (analyze_alerts parseOne [] [histTimed]).daily_distribution = [((2025, 8, 22), 1)] := by
  refine ⟨?_, rfl, rfl⟩
  decide

/-- C6 amended: in this analyzer variant both record kinds feed the
time distributions: every hour bucket equals the number of activity
records plus the number of history records whose parsable timestamp has
that hour, and likewise for day buckets (the earlier 132921 variant
excluded history records, a documented variant disagreement; this file
embeds the 171957 variant the claim cites). -/
theorem claim_C6_amended (parse : String → Option Timestamp)
    (activity alert_history : List RawRecord) (h : Nat) (dk : Nat × Nat × Nat) :
    (getC (analyze_alerts parse activity alert_history).hourly_distribution h
      = (activity.filter (fun a => decide (hourF parse a.timestamp = some h))).length
        + (alert_history.filter
            (fun a => decide (hourF parse a.startDateTime = some h))).length)
    ∧ (getC (analyze_alerts parse activity alert_history).daily_distribution dk
      = (activity.filter (fun a => decide (dayF parse a.timestamp = some dk))).length
        + (alert_history.filter
            (fun a => decide (dayF parse a.startDateTime = some dk))).length) :=
  ⟨analyze_hourly parse activity alert_history h,
   analyze_daily parse activity alert_history dk⟩

theorem keysOf_topAlertsUpd (t : List (String × List (String × Nat)))
    (sevFv nameFv : Option FieldVal) :
    keysOf (topAlertsUpd t sevFv nameFv) = keysOf t := by
  cases hs : strOk sevFv with
  | none => simp [topAlertsUpd, hs]
  | some v =>
      cases hn : nameOk nameFv with
      | none => simp [topAlertsUpd, hs, hn]
      | some n =>
          by_cases hk : hasKey t v
          · simp [topAlertsUpd, hs, hn, hk, keysOf_incC2_of_hasKey t v n 1 hk]
          · simp [topAlertsUpd, hs, hn, hk]

theorem getC2_topAlertsUpd (t : List (String × List (String × Nat)))
    (sevFv nameFv : Option FieldVal) (sev nm : String)
    (hkeys : keysOf t = sevLevels) :
    getC2 (topAlertsUpd t sevFv nameFv) sev nm
      = getC2 t sev nm
        + if strOk sevFv = some sev ∧ nameOk nameFv = some nm ∧ sev ∈ sevLevels
          then 1 else 0 := by
  cases hs : strOk sevFv with
  | none => simp [topAlertsUpd, hs]
  | some v =>
      cases hn : nameOk nameFv with
      | none => simp [topAlertsUpd, hs, hn]
      | some n =>
          by_cases hk : hasKey t v
          · have hv : v ∈ sevLevels := hkeys ▸ (hasKey_iff_mem t v).mp hk
            simp only [topAlertsUpd, hs, hn, hk, if_true]
            rw [getC2_incC2]
            by_cases hvs : v = sev
            · subst hvs
              by_cases hnm : n = nm
              · subst hnm; simp [hv]
              · simp [hnm]
            · have : ¬ (some v = some sev) := by simp [hvs]
              simp [hvs, this]
          · have hv : v ∉ sevLevels := fun hm =>
              hk ((hasKey_iff_mem t v).mpr (hkeys ▸ hm))
            have hcond : ¬ ((some v : Option String) = some sev
                ∧ (some n : Option String) = some nm ∧ sev ∈ sevLevels) := by
              rintro ⟨hvs, -, hsl⟩
              rw [Option.some_inj] at hvs
              exact hv (hvs ▸ hsl)
            simp only [topAlertsUpd, hs, hn]
            rw [if_neg hk, if_neg hcond]
            omega

theorem act_fold_topalerts (parse : String → Option Timestamp)
    (l : List RawRecord) (s : Analysis) :
    (l.foldl (stepActivity parse) s).top_alerts_by_severity
      = s.top_alerts_by_severity := by
  induction l generalizing s with
  | nil => rfl
  | cons a rest ih => simpa using ih (stepActivity parse s a)

theorem hist_fold_topalerts_keys (parse : String → Option Timestamp)
    (l : List RawRecord) (s : Analysis)
    (h : keysOf s.top_alerts_by_severity = sevLevels) :
    keysOf (l.foldl (stepHistory parse) s).top_alerts_by_severity = sevLevels := by
  refine foldl_pres (stepHistory parse)
    (fun s => keysOf s.top_alerts_by_severity = sevLevels) ?_ l s h
  intro s a hs
  have : (stepHistory parse s a).top_alerts_by_severity
      = topAlertsUpd s.top_alerts_by_severity a.severity a.name := rfl
  rw [this, keysOf_topAlertsUpd, hs]

theorem analyze_topalerts (parse : String → Option Timestamp)
    (activity alert_history : List RawRecord) (sev nm : String) :
    getC2 (analyze_alerts parse activity alert_history).top_alerts_by_severity sev nm
      = if sev ∈ sevLevels
        then (alert_history.filter (fun a =>
          decide (strOk a.severity = some sev ∧ nameOk a.name = some nm))).length
        else 0 := by
  have hproj : (analyze_alerts parse activity alert_history).top_alerts_by_severity
      = (alert_history.foldl (stepHistory parse) (activity.foldl (stepActivity parse)
          (initAnalysis
            (activity.length + alert_history.length)))).top_alerts_by_severity := rfl
  rw [hproj]
  set s0 := activity.foldl (stepActivity parse)
    (initAnalysis (activity.length + alert_history.length)) with hs0
  have hkeys : keysOf s0.top_alerts_by_severity = sevLevels := by
    rw [hs0, act_fold_topalerts]
    rfl
  have hmain := foldl_measure_inv (stepHistory parse)
    (fun s => keysOf s.top_alerts_by_severity = sevLevels)
    (fun s => getC2 s.top_alerts_by_severity sev nm)
    (fun a => if strOk a.severity = some sev ∧ nameOk a.name = some nm ∧ sev ∈ sevLevels
              then 1 else 0)
    (fun s a hs => by
      show keysOf (stepHistory parse s a).top_alerts_by_severity = sevLevels
      have hp : (stepHistory parse s a).top_alerts_by_severity
          = topAlertsUpd s.top_alerts_by_severity a.severity a.name := rfl
      rw [hp, keysOf_topAlertsUpd]
      exact hs)
    (fun s a hs => by
      show getC2 (stepHistory parse s a).top_alerts_by_severity sev nm
        = getC2 s.top_alerts_by_severity sev nm
          + if strOk a.severity = some sev ∧ nameOk a.name = some nm ∧ sev ∈ sevLevels
            then 1 else 0
      have hp : (stepHistory parse s a).top_alerts_by_severity
          = topAlertsUpd s.top_alerts_by_severity a.severity a.name := rfl
      rw [hp]
      exact getC2_topAlertsUpd s.top_alerts_by_severity a.severity a.name sev nm hs)
    alert_history s0 hkeys
  have hmain2 : getC2 (alert_history.foldl (stepHistory parse)
        s0).top_alerts_by_severity sev nm
      = getC2 s0.top_alerts_by_severity sev nm
        + (alert_history.map (fun a =>
            if strOk a.severity = some sev ∧ nameOk a.name = some nm ∧ sev ∈ sevLevels
            then 1 else 0)).sum := hmain
  rw [hmain2]
  have h0 : getC2 s0.top_alerts_by_severity sev nm = 0 := by
    rw [hs0, act_fold_topalerts]
    exact getC2_all_nil
      [("Sev0", []), ("Sev1", []), ("Sev2", []), ("Sev3", []), ("Sev4", [])]
      sev nm (by decide)
  rw [h0]
  by_cases hsl : sev ∈ sevLevels
  · have : (fun (a : RawRecord) =>
        if strOk a.severity = some sev ∧ nameOk a.name = some nm
        ∧ sev ∈ sevLevels then (1 : Nat) else 0)
        = (fun (a : RawRecord) =>
          if strOk a.severity = some sev ∧ nameOk a.name = some nm
           then 1 else 0) := by
      funext a
      by_cases hc : strOk a.severity = some sev ∧ nameOk a.name = some nm
      · simp [hc, hsl]
      · simp only [hc]
        simp
        intro h1 h2
        exact absurd ⟨h1, h2⟩ hc
    rw [this, sum_indicator_prop, if_pos hsl]
    omega
  · rw [if_neg hsl]
    have : ∀ a ∈ alert_history,
        (if strOk a.severity = some sev ∧ nameOk a.name = some nm ∧ sev ∈ sevLevels
         then 1 else 0) = 0 := by
      intro a _
      rw [if_neg (fun hfull => hsl hfull.2.2)]
    rw [List.map_congr_left this]
    simp

theorem analyze_severity (parse : String → Option Timestamp)
    (activity alert_history : List RawRecord) (sev : String) :
    getC (analyze_alerts parse activity alert_history).severity_breakdown sev
      = (activity.filter (fun a => decide (strOk a.level = some sev))).length
        + (alert_history.filter (fun a => decide (strOk a.severity = some sev))).length := by
  have hproj : (analyze_alerts parse activity alert_history).severity_breakdown
      = (alert_history.foldl (stepHistory parse) (activity.foldl (stepActivity parse)
          (initAnalysis
            (activity.length + alert_history.length)))).severity_breakdown := rfl
  rw [hproj]
  rw [foldl_measure (stepHistory parse) (fun s => getC s.severity_breakdown sev)
    (fun a => if strOk a.severity = some sev then 1 else 0)
    (fun s a => getC_truthyStrUpd s.severity_breakdown a.severity sev)]
  rw [foldl_measure (stepActivity parse) (fun s => getC s.severity_breakdown sev)
    (fun a => if strOk a.level = some sev then 1 else 0)
    (fun s a => getC_truthyStrUpd s.severity_breakdown a.level sev)]
  rw [sum_indicator_prop, sum_indicator_prop]
  have h0 : getC (initAnalysis
      (activity.length + alert_history.length)).severity_breakdown sev = 0 := rfl
  rw [h0]
  omega

/-- C8 counterexample: a history record with severity Sev1 and NO name
field still updates top_alerts_by_severity — the source defaults the
missing name to the literal Unknown Alert — contradicting the claim
that a record lacking a name adds nothing to the structure. -/
theorem claim_C8_counterexample :
    getC2 (analyze_alerts parseNone [] [histNoName]).top_alerts_by_severity
        "Sev1" "Unknown Alert" ≠ 0
    ∧ getC2 (analyze_alerts parseNone [] [histNoName]).top_alerts_by_severity
        "Sev1" "Unknown Alert" = 1 := by
  refine ⟨?_, rfl⟩
  decide

/-- C8 amended: top_alerts_by_severity is updated only by history
records whose severity is a truthy string among the five recognized
levels; the counted name is the name field when it is a string, the
literal Unknown Alert when the field is absent, and nothing when a
present name is not a string; a record with an unrecognized severity is
still counted in severity_breakdown (which sums the activity level and
history severity counts) but contributes nothing to the top alerts
structure. -/
theorem claim_C8_amended (parse : String → Option Timestamp)
    (activity alert_history : List RawRecord) (sev nm : String) :
    (getC2 (analyze_alerts parse activity alert_history).top_alerts_by_severity sev nm
      = if sev ∈ sevLevels
        then (alert_history.filter (fun a =>
          decide (strOk a.severity = some sev ∧ nameOk a.name = some nm))).length
        else 0)
    ∧ (getC (analyze_alerts parse activity alert_history).severity_breakdown sev
      = (activity.filter (fun a => decide (strOk a.level = some sev))).length
        + (alert_history.filter
            (fun a => decide (strOk a.severity = some sev))).length) :=
  ⟨analyze_topalerts parse activity alert_history sev nm,
   analyze_severity parse activity alert_history sev⟩

theorem nodup_keys_truthyStrUpd (m : List (String × Nat)) (fv : Option FieldVal)
    (h : (keysOf m).Nodup) : (keysOf (truthyStrUpd m fv)).Nodup := by
  cases hs : strOk fv with
  | some v => simpa [truthyStrUpd, hs] using nodup_keys_incC m v 1 h
  | none => simpa [truthyStrUpd, hs] using h

theorem nodup_topres (parse : String → Option Timestamp)
    (activity alert_history : List RawRecord) :
    (keysOf (analyze_alerts parse activity alert_history).top_alerting_resources).Nodup := by
  have hproj : (analyze_alerts parse activity alert_history).top_alerting_resources
      = (alert_history.foldl (stepHistory parse) (activity.foldl (stepActivity parse)
          (initAnalysis
            (activity.length + alert_history.length)))).top_alerting_resources := rfl
  rw [hproj]
  have h1 := foldl_pres (stepActivity parse)
    (fun s => (keysOf s.top_alerting_resources).Nodup)
    (fun s a hs => by
      show (keysOf (stepActivity parse s a).top_alerting_resources).Nodup
      have hp : (stepActivity parse s a).top_alerting_resources
          = truthyStrUpd s.top_alerting_resources a.resourceId := rfl
      rw [hp]
      exact nodup_keys_truthyStrUpd _ _ hs)
    activity (initAnalysis (activity.length + alert_history.length))
    (by simp [initAnalysis, keysOf])
  exact foldl_pres (stepHistory parse)
    (fun s => (keysOf s.top_alerting_resources).Nodup)
    (fun s a hs => by
      show (keysOf (stepHistory parse s a).top_alerting_resources).Nodup
      have hp : (stepHistory parse s a).top_alerting_resources
          = truthyStrUpd s.top_alerting_resources a.targetResource := rfl
      rw [hp]
      exact nodup_keys_truthyStrUpd _ _ hs)
    alert_history _ h1

theorem insertDesc_perm (p : String × Nat) (l : List (String × Nat)) :
    (insertDesc p l).Perm (p :: l) := by
  induction l with
  | nil => exact List.Perm.refl _
  | cons q rest ih =>
      by_cases h : p.2 < q.2
      · simp only [insertDesc, if_pos h]
        exact (ih.cons q).trans (List.Perm.swap p q rest)
      · simp only [insertDesc, if_neg h]
        exact List.Perm.refl _

theorem sortDesc_perm (l : List (String × Nat)) : (sortDesc l).Perm l := by
  induction l with
  | nil => exact List.Perm.refl _
  | cons x rest ih =>
      have : sortDesc (x :: rest) = insertDesc x (sortDesc rest) := rfl
      rw [this]
      exact (insertDesc_perm x (sortDesc rest)).trans (ih.cons x)

theorem nodup_keys_mostCommon (m : List (String × Nat)) (n : Nat)
    (h : (keysOf m).Nodup) : (keysOf (mostCommon m n)).Nodup := by
  have hperm : (keysOf (sortDesc m)).Perm (keysOf m) := (sortDesc_perm m).map Prod.fst
  have hnds : (keysOf (sortDesc m)).Nodup := hperm.nodup_iff.mpr h
  have htake : keysOf (mostCommon m n) = (keysOf (sortDesc m)).take n := by
    simp [mostCommon, keysOf, List.map_take]
  rw [htake]
  exact hnds.sublist (List.take_sublist n _)

theorem key_mem_of_mem_guard {K B : Type} [DecidableEq K]
    (f : K × Nat → B) (keyOf : B → K) (cond : K × Nat → Bool)
    (hf : ∀ q, keyOf (f q) = q.1) (cands : List (K × Nat)) (b : B)
    (hb : b ∈ cands.filterMap (fun q => if cond q then some (f q) else none)) :
    keyOf b ∈ keysOf cands := by
  rw [List.mem_filterMap] at hb
  obtain ⟨q, hq, hqf⟩ := hb
  by_cases hc : cond q
  · rw [if_pos hc, Option.some_inj] at hqf
    subst hqf
    rw [hf]
    exact List.mem_map.mpr ⟨q, hq, rfl⟩
  · rw [if_neg hc] at hqf
    exact absurd hqf (by simp)

theorem count_filterMap_guard {K B : Type} [DecidableEq K]
    (f : K × Nat → B) (keyOf : B → K) (cond : K × Nat → Bool)
    (hf : ∀ q, keyOf (f q) = q.1) :
    ∀ (cands : List (K × Nat)), (keysOf cands).Nodup → ∀ p ∈ cands,
      ((cands.filterMap (fun q => if cond q then some (f q) else none)).filter
          (fun b => decide (keyOf b = p.1))).length
        = if cond p then 1 else 0 := by
  intro cands
  induction cands with
  | nil => intro _ p hp; exact absurd hp (List.not_mem_nil p)
  | cons q rest ih =>
      intro hnd p hp
      simp only [keysOf, List.map_cons, List.nodup_cons] at hnd
      have hqnr : q.1 ∉ keysOf rest := by simpa [keysOf] using hnd.1
      have hndr : (keysOf rest).Nodup := by simpa [keysOf] using hnd.2
      rcases List.mem_cons.mp hp with hpq | hprest
      · subst hpq
        have hrest : ((rest.filterMap
            (fun q => if cond q then some (f q) else none)).filter
              (fun b => decide (keyOf b = p.1))) = [] := by
          rw [List.filter_eq_nil_iff]
          intro b hb
          have := key_mem_of_mem_guard f keyOf cond hf rest b hb
          simp only [decide_eq_true_eq]
          intro hkb
          exact hqnr (hkb ▸ this)
        by_cases hc : cond p
        · simp only [List.filterMap_cons, if_pos hc, List.filter_cons, hf,
            decide_eq_true_eq, if_pos rfl, hrest]
          simp [hc]
        · simp only [List.filterMap_cons, if_neg hc, hrest]
          simp [hc]
      · have hp1 : p.1 ∈ keysOf rest := List.mem_map.mpr ⟨p, hprest, rfl⟩
        have hq1 : ¬ (q.1 = p.1) := fun he => hqnr (he ▸ hp1)
        by_cases hc : cond q
        · simp only [List.filterMap_cons, if_pos hc, List.filter_cons, hf,
            decide_eq_true_eq, if_neg hq1]
          exact ih hndr p hprest
        · simp only [List.filterMap_cons, if_neg hc]
          exact ih hndr p hprest

/-- Documentation of m07: it is the floor of 7 * 2 ^ 53 / 10, and the
discarded remainder 4 is below half of 10, so the floor is also the
nearest 53 bit value to 0.7. -/
theorem m07_nearest : m07 = 7 * 2 ^ 53 / 10 ∧ 2 * (7 * 2 ^ 53 % 10) < 10 := by
  decide

/-- C5 counterexample: the claimed strict exact threshold is false of
the program.  For a resource with 90 alerts, 63 of them Warning, the
low severity count 63 is NOT strictly greater than 0.7 times 90 (both
sides equal 63 exactly, i.e. 10 * 63 = 7 * 90), so the claim says no
recommendation; but the source compares against the double
90 * 0.7 = 62.99999999999999289, which 63 strictly exceeds, and exactly
one recommendation is emitted. -/
theorem claim_C5_counterexample :
    (lowSevCount act90 "rX" = 63)
    ∧ (("rX", 90) ∈ mostCommon
        (analyze_alerts parseNone act90 []).top_alerting_resources 20)
    ∧ ¬ (10 * lowSevCount act90 "rX" > 7 * 90)
    ∧ (((analyze_alerts parseNone act90 []).tuning_recommendations.filter
        (fun rec => decide (rec.resource = "rX"))).length = 1) := by
  refine ⟨by decide, by decide, by decide, by decide⟩

/-- C5 amended: a candidate among the top 20 alerting resources
receives exactly one tuning recommendation when its total count
strictly exceeds 5 AND its low severity activity count strictly exceeds
the double precision product count * 0.7 (pyGt07, written out below as
the integer comparison of low * 2 ^ 53 with the twice rounded product),
and none otherwise.  This agrees with the exact strict 0.7 fraction
test at the claimed boundary inputs (5 of 6 recommended, 4 of 6 not),
but not at every count: where rounding pulls the product just below the
exact fraction (e.g. total 90) a low severity count exactly equal to
0.7 times the total is also recommended.  Moreover every emitted
recommendation has alert count strictly above 5, so a resource with at
most 5 alerts is never recommended regardless of ratio. -/
theorem claim_C5_amended (parse : String → Option Timestamp)
    (activity alert_history : List RawRecord) (p : String × Nat)
    (hp : p ∈ mostCommon
      (analyze_alerts parse activity alert_history).top_alerting_resources 20) :
    ((((analyze_alerts parse activity alert_history).tuning_recommendations.filter
        (fun rec => decide (rec.resource = p.1))).length
      = if round53 (round53 p.2 * m07) < lowSevCount activity p.1 * 2 ^ 53 ∧ 5 < p.2
        then 1 else 0)
    ∧ ((analyze_alerts parse activity alert_history).tuning_recommendations.all
        (fun rec => decide (5 < rec.alert_count)) = true)) := by
  have hproj2 : (analyze_alerts parse activity alert_history).top_alerting_resources
      = (alert_history.foldl (stepHistory parse) (activity.foldl (stepActivity parse)
          (initAnalysis
            (activity.length + alert_history.length)))).top_alerting_resources := rfl
  have hproj : (analyze_alerts parse activity alert_history).tuning_recommendations
      = tuningRecs (alert_history.foldl (stepHistory parse)
          (activity.foldl (stepActivity parse)
            (initAnalysis
              (activity.length + alert_history.length)))).top_alerting_resources
          activity := rfl
  have hnd := nodup_topres parse activity alert_history
  rw [hproj2] at hnd hp
  constructor
  · have hcount := count_filterMap_guard mkTuning TuningRec.resource
      (tuningCond activity) (fun q => rfl)
      (mostCommon (alert_history.foldl (stepHistory parse)
        (activity.foldl (stepActivity parse)
          (initAnalysis
            (activity.length + alert_history.length)))).top_alerting_resources 20)
      (nodup_keys_mostCommon _ 20 hnd) p hp
    have hiff : (tuningCond activity p = true)
        ↔ (round53 (round53 p.2 * m07) < lowSevCount activity p.1 * 2 ^ 53
            ∧ 5 < p.2) := by
      simp [tuningCond, pyGt07]
    rw [hproj, tuningRecs]
    rw [hcount, if_congr hiff rfl rfl]
  · rw [hproj, tuningRecs, List.all_eq_true]
    intro rec hrec
    rw [List.mem_filterMap] at hrec
    obtain ⟨q, hq, hf⟩ := hrec
    by_cases hc : tuningCond activity q
    · rw [if_pos hc, Option.some_inj] at hf
      subst hf
      have h5 : 5 < q.2 := by
        simp [tuningCond] at hc
        exact hc.2
      simp [mkTuning, h5]
    · rw [if_neg hc] at hf
      exact absurd hf (by simp)

/-- C5 witness: on the concrete six alert input (five Warning, one
Error, all for resource r1) the candidate pair (r1, 6) is among the top
20 and the threshold equivalence instantiates, giving exactly one
recommendation since 5 strictly exceeds the double 6 * 0.7 and 6 > 5. -/
theorem claim_C5_witness :
    (("r1", 6) ∈ mostCommon
      (analyze_alerts parseNone actSix []).top_alerting_resources 20)
    ∧ ((((analyze_alerts parseNone actSix []).tuning_recommendations.filter
        (fun rec => decide (rec.resource = "r1"))).length
      = if round53 (round53 6 * m07) < lowSevCount actSix "r1" * 2 ^ 53 ∧ 5 < 6
        then 1 else 0)
    ∧ ((analyze_alerts parseNone actSix []).tuning_recommendations.all
        (fun rec => decide (5 < rec.alert_count)) = true)) :=
  ⟨by decide,
   claim_C5_amended parseNone actSix [] ("r1", 6) (by decide)⟩

/-- C10: a resource that appears in no activity record (its alerts are
all ManagementHistory sourced) never receives a tuning recommendation,
whatever its total count, because its low severity count is computed
over activity records only and is therefore 0, and the double
comparison 0 > count * 0.7 never holds (the product is a nonnegative
double). -/
theorem claim_C10_history_only_never_recommended (parse : String → Option Timestamp)
    (activity alert_history : List RawRecord) (r : String)
    (h : ∀ a ∈ activity, a.resourceId ≠ some (.vStr r)) :
    (analyze_alerts parse activity alert_history).tuning_recommendations.filter
      (fun rec => decide (rec.resource = r)) = [] := by
  have hlow : lowSevCount activity r = 0 := by
    rw [lowSevCount, List.length_eq_zero, List.filter_eq_nil_iff]
    intro a ha
    have hne := h a ha
    cases hrid : a.resourceId with
    | none => simp [isLowSevFor, hrid]
    | some fv =>
        cases fv with
        | vStr r0 =>
            have hr0 : r0 ≠ r := by
              intro he
              subst he
              exact hne hrid
            simp [isLowSevFor, hrid, hr0]
        | vDict v l rn => simp [isLowSevFor, hrid]
        | vOther t rn => simp [isLowSevFor, hrid]
  have hproj : (analyze_alerts parse activity alert_history).tuning_recommendations
      = tuningRecs (alert_history.foldl (stepHistory parse)
          (activity.foldl (stepActivity parse)
            (initAnalysis
              (activity.length + alert_history.length)))).top_alerting_resources
          activity := rfl
  rw [hproj, tuningRecs, List.filter_eq_nil_iff]
  intro rec hrec
  rw [List.mem_filterMap] at hrec
  obtain ⟨q, hq, hf⟩ := hrec
  by_cases hc : tuningCond activity q
  · rw [if_pos hc, Option.some_inj] at hf
    subst hf
    simp only [decide_eq_true_eq]
    intro hres
    have hq1 : q.1 = r := hres
    have hcc : round53 (round53 q.2 * m07) < lowSevCount activity q.1 * 2 ^ 53 := by
      simp [tuningCond, pyGt07] at hc
      exact hc.1
    rw [hq1, hlow] at hcc
    simp at hcc
  · rw [if_neg hc] at hf
    exact absurd hf (by simp)

/-- C10 witness: resource r2 alerts only through six history records
and receives no recommendation. -/
theorem claim_C10_witness :
    (∀ a ∈ ([] : List RawRecord), a.resourceId ≠ some (.vStr "r2"))
    ∧ (analyze_alerts parseNone [] histSix).tuning_recommendations.filter
        (fun rec => decide (rec.resource = "r2")) = [] :=
  ⟨by simp,
   claim_C10_history_only_never_recommended parseNone [] histSix "r2" (by simp)⟩

/-- C7 counterexample: a record whose resourceType has a truthy shape
that is neither a string nor a dict is NOT treated as absent — the
source falls back to str(resource_type) and counts that rendering in
resource_type_breakdown (here the number 7 contributes the key 7),
whereas an absent field contributes nothing. -/
theorem claim_C7_counterexample :
    ((analyze_alerts parseNone [actNumType] []).resource_type_breakdown = [("7", 1)])
    ∧ ((analyze_alerts parseNone [({} : RawRecord)] []).resource_type_breakdown = []) :=
  ⟨rfl, rfl⟩

/-- C7 amended: processing one activity record never fails, and a field
whose shape fails its guard behaves exactly as an absent field (the
record still contributes to every other breakdown, since the step is
the simultaneous independent update of the containers): a non string or
empty level, resourceGroup or resourceId is dropped, a timestamp that
is not a truthy string or does not parse feeds no time bucket, a falsy
resourceType is dropped — but a truthy resourceType of a non string non
dict shape is NOT dropped: it contributes its str() rendering to the
resource type breakdown. -/
theorem claim_C7_amended (parse : String → Option Timestamp)
    (s : Analysis) (a : RawRecord) :
    (strOk a.level = none →
      stepActivity parse s a = stepActivity parse s { a with level := none })
    ∧ (strOk a.resourceGroup = none →
      stepActivity parse s a = stepActivity parse s { a with resourceGroup := none })
    ∧ (strOk a.resourceId = none →
      stepActivity parse s a = stepActivity parse s { a with resourceId := none })
    ∧ (tsOf parse a.timestamp = none →
      stepActivity parse s a = stepActivity parse s { a with timestamp := none })
    ∧ (∀ fv, a.resourceType = some fv → fv.truthy = false →
      stepActivity parse s a = stepActivity parse s { a with resourceType := none })
    ∧ (∀ r, a.resourceType = some (.vOther true r) →
      (stepActivity parse s a).resource_type_breakdown
        = incC s.resource_type_breakdown r 1) := by
  have hts : ∀ (m : List (String × Nat)) (fv : Option FieldVal),
      strOk fv = none → truthyStrUpd m fv = m := by
    intro m fv h
    simp only [truthyStrUpd, h]
  have hhu : ∀ (m : List (Nat × Nat)) (fv : Option FieldVal),
      tsOf parse fv = none → hourUpd parse m fv = m := by
    intro m fv h
    simp only [hourUpd, h]
  have hdu : ∀ (m : List ((Nat × Nat × Nat) × Nat)) (fv : Option FieldVal),
      tsOf parse fv = none → dayUpd parse m fv = m := by
    intro m fv h
    simp only [dayUpd, h]
  refine ⟨?_, ?_, ?_, ?_, ?_, ?_⟩
  · intro h
    simp [stepActivity, hts _ _ h, hts _ (none : Option FieldVal) rfl]
  · intro h
    simp [stepActivity, hts _ _ h, hts _ (none : Option FieldVal) rfl]
  · intro h
    simp [stepActivity, hts _ _ h, hts _ (none : Option FieldVal) rfl]
  · intro h
    simp [stepActivity, hhu _ _ h, hdu _ _ h,
      hhu _ (none : Option FieldVal) rfl, hdu _ (none : Option FieldVal) rfl]
  · intro fv hfv ht
    simp [stepActivity, rtypeUpd, hfv, ht]
  · intro r hr
    have hp : (stepActivity parse s a).resource_type_breakdown
        = rtypeUpd s.resource_type_breakdown a.resourceType := rfl
    rw [hp, hr]
    simp [rtypeUpd, FieldVal.truthy, resourceTypeStr]

/-- C7 witness: the malformed level of the concrete record is dropped
and the step behaves as if the field were absent. -/
theorem claim_C7_witness :
    (strOk actBadLevel.level = none)
    ∧ stepActivity parseNone (initAnalysis 0) actBadLevel
        = stepActivity parseNone (initAnalysis 0) { actBadLevel with level := none } :=
  ⟨rfl, (claim_C7_amended parseNone (initAnalysis 0) actBadLevel).1 rfl⟩

theorem analyze_total (parse : String → Option Timestamp)
    (activity alert_history : List RawRecord) :
    (analyze_alerts parse activity alert_history).total_alerts
      = activity.length + alert_history.length := by
  have hproj : (analyze_alerts parse activity alert_history).total_alerts
      = (alert_history.foldl (stepHistory parse) (activity.foldl (stepActivity parse)
          (initAnalysis (activity.length + alert_history.length)))).total_alerts := rfl
  rw [hproj]
  have h1 := foldl_pres (stepActivity parse)
    (fun s => s.total_alerts = activity.length + alert_history.length)
    (fun s a hs => hs) activity
    (initAnalysis (activity.length + alert_history.length)) rfl
  exact foldl_pres (stepHistory parse)
    (fun s => s.total_alerts = activity.length + alert_history.length)
    (fun s a hs => hs) alert_history _ h1

/-- C9: zero denominators never raise and yield 0: the guarded
percentage of the report and dashboard is 0 whenever the total is 0;
for an analysis document with totalAlerts 0 every severity or state
percentage is 0 and the low severity percentage (guarded through
max(total, 1)) is 0; the tenant document percentages behave the same. -/
theorem claim_C9_zero_denominator (c : Nat) (parse : String → Option Timestamp)
    (activity alert_history : List RawRecord) (sev : String) (ds : List SubData) :
    (pct c 0 = 0)
    ∧ ((analyze_alerts parse activity alert_history).total_alerts = 0 →
        (pct (getC (analyze_alerts parse activity alert_history).severity_breakdown sev)
            (analyze_alerts parse activity alert_history).total_alerts = 0
        ∧ pct (getC
              (analyze_alerts parse activity alert_history).alert_state_breakdown sev)
            (analyze_alerts parse activity alert_history).total_alerts = 0
        ∧ lowSevPct (analyze_alerts parse activity alert_history) = 0))
    ∧ ((aggregate_subscription_data ds).total_alerts = 0 →
        pct (getC (aggregate_subscription_data ds).severity_breakdown sev)
          (aggregate_subscription_data ds).total_alerts = 0) := by
  refine ⟨by simp [pct], ?_, ?_⟩
  · intro h0
    refine ⟨by rw [h0]; simp [pct], by rw [h0]; simp [pct], ?_⟩
    have hlen : activity.length + alert_history.length = 0 := by
      rw [← analyze_total parse activity alert_history]
      exact h0
    have hact : activity = [] := List.length_eq_zero.mp (by omega)
    have hhist : alert_history = [] := List.length_eq_zero.mp (by omega)
    subst hact
    subst hhist
    have e1 : getC (analyze_alerts parse [] []).severity_breakdown "Warning" = 0 := rfl
    have e2 : getC (analyze_alerts parse [] []).severity_breakdown "Informational" = 0 := rfl
    have e3 : (analyze_alerts parse [] []).total_alerts = 0 := rfl
    rw [lowSevPct, e1, e2, e3]
    norm_num
  · intro h0
    rw [h0]
    simp [pct]

/-- C9 witness: at the empty input the engine reports zero total alerts
and every percentage evaluates to 0 rather than failing. -/
theorem claim_C9_witness :
    ((analyze_alerts parseNone [] []).total_alerts = 0)
    ∧ (pct (getC (analyze_alerts parseNone [] []).severity_breakdown "Sev1")
        (analyze_alerts parseNone [] []).total_alerts = 0
      ∧ pct (getC (analyze_alerts parseNone [] []).alert_state_breakdown "Sev1")
        (analyze_alerts parseNone [] []).total_alerts = 0
      ∧ lowSevPct (analyze_alerts parseNone [] []) = 0) :=
  ⟨rfl, (claim_C9_zero_denominator 3 parseNone [] [] "Sev1" []).2.1 rfl⟩

/-- C1: the tenant rollup merge is a commutative monoid on the scalar
total and on every keyed counting map: aggregating any permutation of
the subscription documents yields identical totals key by key
(total_alerts, severity, state, state by severity, resource type,
resource group, resource id, top alerts by severity), and aggregating a
concatenation splits as the key wise sum of the two aggregates, with a
key missing from a document contributing 0. -/
theorem claim_C1_rollup_monoid (l1 l2 xs ys : List SubData) (hperm : l1.Perm l2) :
    ((aggregate_subscription_data l1).total_alerts
        = (aggregate_subscription_data l2).total_alerts)
    ∧ (∀ k, getC (aggregate_subscription_data l1).severity_breakdown k
        = getC (aggregate_subscription_data l2).severity_breakdown k)
    ∧ (∀ k, getC (aggregate_subscription_data l1).alert_state_breakdown k
        = getC (aggregate_subscription_data l2).alert_state_breakdown k)
    ∧ (∀ s st, getC2 (aggregate_subscription_data l1).alert_state_by_severity s st
        = getC2 (aggregate_subscription_data l2).alert_state_by_severity s st)
    ∧ (∀ k, getC (aggregate_subscription_data l1).resource_type_breakdown k
        = getC (aggregate_subscription_data l2).resource_type_breakdown k)
    ∧ (∀ k, getC (aggregate_subscription_data l1).resource_group_breakdown k
        = getC (aggregate_subscription_data l2).resource_group_breakdown k)
    ∧ (∀ k, getC (aggregate_subscription_data l1).top_alerting_resources k
        = getC (aggregate_subscription_data l2).top_alerting_resources k)
    ∧ (∀ s n, getC2 (aggregate_subscription_data l1).top_alerts_by_severity s n
        = getC2 (aggregate_subscription_data l2).top_alerts_by_severity s n)
    ∧ ((aggregate_subscription_data (xs ++ ys)).total_alerts
        = (aggregate_subscription_data xs).total_alerts
          + (aggregate_subscription_data ys).total_alerts)
    ∧ (∀ k, getC (aggregate_subscription_data (xs ++ ys)).severity_breakdown k
        = getC (aggregate_subscription_data xs).severity_breakdown k
          + getC (aggregate_subscription_data ys).severity_breakdown k)
    ∧ (∀ k, getC (aggregate_subscription_data (xs ++ ys)).alert_state_breakdown k
        = getC (aggregate_subscription_data xs).alert_state_breakdown k
          + getC (aggregate_subscription_data ys).alert_state_breakdown k)
    ∧ (∀ s st, getC2 (aggregate_subscription_data (xs ++ ys)).alert_state_by_severity s st
        = getC2 (aggregate_subscription_data xs).alert_state_by_severity s st
          + getC2 (aggregate_subscription_data ys).alert_state_by_severity s st)
    ∧ (∀ k, getC (aggregate_subscription_data (xs ++ ys)).resource_type_breakdown k
        = getC (aggregate_subscription_data xs).resource_type_breakdown k
          + getC (aggregate_subscription_data ys).resource_type_breakdown k)
    ∧ (∀ k, getC (aggregate_subscription_data (xs ++ ys)).resource_group_breakdown k
        = getC (aggregate_subscription_data xs).resource_group_breakdown k
          + getC (aggregate_subscription_data ys).resource_group_breakdown k)
    ∧ (∀ k, getC (aggregate_subscription_data (xs ++ ys)).top_alerting_resources k
        = getC (aggregate_subscription_data xs).top_alerting_resources k
          + getC (aggregate_subscription_data ys).top_alerting_resources k)
    ∧ (∀ s n, getC2 (aggregate_subscription_data (xs ++ ys)).top_alerts_by_severity s n
        = getC2 (aggregate_subscription_data xs).top_alerts_by_severity s n
          + getC2 (aggregate_subscription_data ys).top_alerts_by_severity s n) := by
  refine ⟨?_, ?_, ?_, ?_, ?_, ?_, ?_, ?_, ?_, ?_, ?_, ?_, ?_, ?_, ?_, ?_⟩
  · rw [agg_total, agg_total]
    exact map_sum_perm _ hperm
  · intro k
    rw [agg_severity, agg_severity]
    exact map_sum_perm _ hperm
  · intro k
    rw [agg_state, agg_state]
    exact map_sum_perm _ hperm
  · intro s st
    rw [agg_state_by_sev, agg_state_by_sev]
    exact map_sum_perm _ hperm
  · intro k
    rw [agg_rtype, agg_rtype]
    exact map_sum_perm _ hperm
  · intro k
    rw [agg_rgroup, agg_rgroup]
    exact map_sum_perm _ hperm
  · intro k
    rw [agg_topres, agg_topres]
    exact map_sum_perm _ hperm
  · intro s n
    rw [agg_topalerts, agg_topalerts]
    exact map_sum_perm _ hperm
  · rw [agg_total, agg_total, agg_total]
    exact map_sum_append _ xs ys
  · intro k
    rw [agg_severity, agg_severity, agg_severity]
    exact map_sum_append _ xs ys
  · intro k
    rw [agg_state, agg_state, agg_state]
    exact map_sum_append _ xs ys
  · intro s st
    rw [agg_state_by_sev, agg_state_by_sev, agg_state_by_sev]
    exact map_sum_append _ xs ys
  · intro k
    rw [agg_rtype, agg_rtype, agg_rtype]
    exact map_sum_append _ xs ys
  · intro k
    rw [agg_rgroup, agg_rgroup, agg_rgroup]
    exact map_sum_append _ xs ys
  · intro k
    rw [agg_topres, agg_topres, agg_topres]
    exact map_sum_append _ xs ys
  · intro s n
    rw [agg_topalerts, agg_topalerts, agg_topalerts]
    exact map_sum_append _ xs ys

/-- C1 witness: the concrete two document rollup gives the same total
in both orders. -/
theorem claim_C1_witness :
    (([subD1, subD2] : List SubData).Perm [subD2, subD1])
    ∧ ((aggregate_subscription_data [subD1, subD2]).total_alerts
        = (aggregate_subscription_data [subD2, subD1]).total_alerts) :=
  ⟨List.Perm.swap subD2 subD1 [],
   (claim_C1_rollup_monoid [subD1, subD2] [subD2, subD1] [] []
     (List.Perm.swap subD2 subD1 [])).1⟩
